import Mathlib

/-!
Verification of the cv-screener RAG pipeline specification.

This file gives a shallow embedding, in Lean 4, of the core retrieval /
orchestration code of the repository:

* `src/api/rag/cache.py`    — `ResponseCache` over an in-memory backend,
* `src/api/rag/reranker.py` — `HybridRetriever` (vector + BM25 fusion),
* `src/api/rag/chain.py`    — `ConversationalRAGChain` (context formatting,
  history management, the `query` state machine),
* `src/api/rag/prompts.py`  — `PromptTemplate`, `QueryAnalyzer`,
  `GuardrailValidator`, `PromptOptimizer`.

Modelling conventions, applied uniformly:

* Python strings are Lean `String`s; all string manipulation is re-implemented
  over `String.data` (`List Char`) with structural recursion so that every
  definition evaluates inside the kernel.  (`String.toLower`, `String.trim`
  and friends are defined by well-founded recursion in core and do not
  reduce definitionally, so we avoid them.)
* Python floats are modelled as `ℚ`.  Score arithmetic in the source is IEEE
  floating point; every property proved here is exact-arithmetic, which is
  faithful for the order/length/structure claims at issue.
* Python dicts used as ordered key→value maps (the merge dictionary of the
  reranker, the in-memory cache store) are modelled as association lists with
  the dict semantics: update-in-place keeps the insertion position, fresh
  keys append at the end.
* Python sets of small ints (the citation sets of the validator) are modelled
  as duplicate-free lists; where the source renders a set into an issue
  message, the model carries the underlying list in a structured `Issue`
  payload instead of interpolating it into a string.
* The md5 hashing in `_generate_cache_key` only shortens the key; the model
  uses the pre-hash key string itself (an injective stand-in for a hash
  assumed collision-free on the inputs of interest).
* External collaborators (the vector retriever, the BM25 corpus search, the
  OpenAI completion call) are taken as explicit function parameters; the
  completion call returns `Except String String` so that the `try/except`
  of `_generate_response` can be modelled.
* `MetricsCollector` is `None` throughout (the `trace`/`metrics` branches of
  `query` perform the same calls and only add observability).
-/

namespace CvScreener

/-! ## String primitives (structural re-implementations of Python behaviour) -/

/-- Models Python `str.lower()` (ASCII case folding, as used by the source). -/
def strLower (s : String) : String := ⟨s.data.map Char.toLower⟩

/-- Models Python `str.strip()`: remove leading and trailing whitespace. -/
def pyStrip (s : String) : String :=
  ⟨(((s.data.dropWhile Char.isWhitespace).reverse.dropWhile Char.isWhitespace).reverse)⟩

/-- Auxiliary splitter: accumulate the current word, break on whitespace. -/
def pySplitCore : List Char → List Char → List String
  | [], acc => if acc = [] then [] else [⟨acc.reverse⟩]
  | c :: cs, acc =>
    if c.isWhitespace then
      if acc = [] then pySplitCore cs [] else ⟨acc.reverse⟩ :: pySplitCore cs []
    else pySplitCore cs (c :: acc)

/-- Models Python `str.split()` with no argument: split on whitespace runs,
discarding empty pieces. -/
def pySplit (s : String) : List String := pySplitCore s.data []

/-- Models Python `sep.join(parts)`. -/
def joinSep (sep : String) : List String → String
  | [] => ""
  | [x] => x
  | x :: y :: xs => x ++ sep ++ joinSep sep (y :: xs)

/-- Does `pat` occur as a prefix of `l`? -/
def charsPrefix : List Char → List Char → Bool
  | [], _ => true
  | _ :: _, [] => false
  | p :: ps, c :: cs => p = c && charsPrefix ps cs

/-- Does `pat` occur somewhere in `l`?  Models Python `pat in s`. -/
def charsContains (l pat : List Char) : Bool :=
  match l with
  | [] => charsPrefix pat []
  | _ :: cs => charsPrefix pat l || charsContains cs pat

/-- Models Python substring membership `pat in s`. -/
def strContains (s pat : String) : Bool := charsContains s.data pat.data

/-- Decimal digit to character. -/
def digitCh (n : ℕ) : Char :=
  if n = 0 then '0' else if n = 1 then '1' else if n = 2 then '2'
  else if n = 3 then '3' else if n = 4 then '4' else if n = 5 then '5'
  else if n = 6 then '6' else if n = 7 then '7' else if n = 8 then '8' else '9'

/-- Fuel-driven decimal rendering (structural, so that it kernel-evaluates). -/
def natToStrCore : ℕ → ℕ → List Char → List Char
  | 0, _, acc => acc
  | fuel + 1, n, acc =>
    if n < 10 then digitCh n :: acc
    else natToStrCore fuel (n / 10) (digitCh (n % 10) :: acc)

/-- Models Python `str(n)` for a natural number. -/
def natToStr (n : ℕ) : String := ⟨natToStrCore (n + 1) n []⟩

/-- Models Python `f"{x:.1%}"` on a non-negative float: percentage with one
decimal digit.  (Python rounds half-to-even; the model rounds half-up, and no
value used in this development sits on a tie.) -/
def formatPercent (q : ℚ) : String :=
  let t : ℕ := (⌊q * 1000 + 1/2⌋).toNat
  natToStr (t / 10) ++ "." ++ natToStr (t % 10) ++ "%"

/-! ## `src/api/rag/cache.py` — `ResponseCache` over `MemoryCache` -/

/-- A retrieved document as the chain sees it: the fields of the dictionaries
produced by the retrievers that the cache, the context formatter and the query
pipeline actually read.  `similarity` models `doc.get("similarity", 0)`:
documents reaching the chain from the BM25-only path carry no similarity key,
which the source reads as `0`. -/
structure Doc where
  content : String
  url : String
  title : String
  similarity : ℚ
  deriving DecidableEq, Repr

/-- The value stored by `ResponseCache.set`. -/
structure CacheValue where
  response : String
  sources : List Doc
  timestamp : ℚ
  deriving DecidableEq

/-- One `MemoryCache` slot: `{"value": ..., "expires_at": ...}`. -/
structure MemEntry where
  value : CacheValue
  expires_at : ℚ
  deriving DecidableEq

/-- `MemoryCache` state plus the `ResponseCache` hit/miss/set counters. -/
structure CacheState where
  store : List (String × MemEntry)
  hits : ℕ
  misses : ℕ
  sets : ℕ
  deriving DecidableEq

/-- First-match lookup in the backing dict. -/
def storeGet (store : List (String × MemEntry)) (key : String) : Option MemEntry :=
  match store with
  | [] => none
  | (k, e) :: rest => if k = key then some e else storeGet rest key

/-- Dict assignment: overwrite in place if the key exists, else append. -/
def storeSet (store : List (String × MemEntry)) (key : String) (e : MemEntry) :
    List (String × MemEntry) :=
  match store with
  | [] => [(key, e)]
  | (k, e₀) :: rest =>
    if k = key then (k, e) :: rest else (k, e₀) :: storeSet rest key e

/-- Dict deletion (used by `MemoryCache.get` on an expired entry). -/
def storeDel (store : List (String × MemEntry)) (key : String) :
    List (String × MemEntry) :=
  match store with
  | [] => []
  | (k, e₀) :: rest => if k = key then rest else (k, e₀) :: storeDel rest key

/-- `MemoryCache.get`: return the live value; evict and miss if expired.
`now` models `time.time()`. -/
def memGet (store : List (String × MemEntry)) (key : String) (now : ℚ) :
    Option CacheValue × List (String × MemEntry) :=
  match storeGet store key with
  | none => (none, store)
  | some e => if e.expires_at < now then (none, storeDel store key) else (some e.value, store)

/-- `MemoryCache.set`: store with expiry `now + ttl`. -/
def memSet (store : List (String × MemEntry)) (key : String) (v : CacheValue)
    (ttl now : ℚ) : List (String × MemEntry) :=
  storeSet store key ⟨v, now + ttl⟩

namespace ResponseCache

/-- `ResponseCache._normalize_query`: lowercase, strip, collapse internal
whitespace.  (No punctuation of any kind is removed.) -/
def normalize_query (query : String) : String :=
  joinSep " " (pySplit (pyStrip (strLower query)))

/-- `ResponseCache._generate_cache_key`: key from the normalized query and
`top_k`.  The source md5-hashes `key_string` to shorten it; the model keeps
`key_string` itself (hashing assumed injective). -/
def generate_cache_key (query : String) (top_k : ℕ) : String :=
  "rag:response:" ++ normalize_query query ++ ":" ++ natToStr top_k

/-- `ResponseCache.get`.  Returns the cached value (if any) and the updated
cache state (stats, possible expiry eviction). -/
def get (enabled : Bool) (cs : CacheState) (query : String) (top_k : ℕ) (now : ℚ) :
    Option CacheValue × CacheState :=
  if enabled then
    let key := generate_cache_key query top_k
    match memGet cs.store key now with
    | (some v, store') => (some v, { cs with store := store', hits := cs.hits + 1 })
    | (none, store') => (none, { cs with store := store', misses := cs.misses + 1 })
  else (none, cs)

/-- `ResponseCache.set`. -/
def set (enabled : Bool) (ttl : ℚ) (cs : CacheState) (query : String) (top_k : ℕ)
    (response : String) (sources : List Doc) (now : ℚ) : CacheState :=
  if enabled then
    { cs with
      store := memSet cs.store (generate_cache_key query top_k) ⟨response, sources, now⟩ ttl now
      sets := cs.sets + 1 }
  else cs

end ResponseCache

/-! ## `src/api/rag/reranker.py` — `HybridRetriever` -/

/-- A `VectorRetriever.retrieve` result: `{content, url, title, similarity,
metadata}` (the opaque `metadata` is omitted — nothing in the core reads it). -/
structure VecResult where
  content : String
  url : String
  title : String
  similarity : ℚ
  deriving DecidableEq, Repr

/-- A `_bm25_search` result: `{id, content, metadata, url, title, bm25_score}`.
The numeric row `id` is only used to build the (dead) `bm25_lookup` dict in the
source and is omitted. -/
structure BmResult where
  content : String
  url : String
  title : String
  bm25_score : ℚ
  deriving DecidableEq, Repr

/-- A merged entry of `_merge_and_rerank`: the source fields plus
`vector_score`, `bm25_score_norm`, `hybrid_score`.  For a BM25-only entry the
source dict has no `similarity` key; the model stores `0` there, which is what
every downstream read (`d.get("similarity", 0)`) yields.  `hybrid_score` is
populated by the third pass; entries carry `0` until then. -/
structure HybridResult where
  content : String
  url : String
  title : String
  similarity : ℚ
  vector_score : ℚ
  bm25_score_norm : ℚ
  hybrid_score : ℚ
  deriving DecidableEq, Repr

namespace HybridRetriever

/-- Python `min(scores)` on a non-empty list (`0` dummy on `[]`, never hit). -/
def listMin : List ℚ → ℚ
  | [] => 0
  | x :: xs => xs.foldl min x

/-- Python `max(scores)` on a non-empty list. -/
def listMax : List ℚ → ℚ
  | [] => 0
  | x :: xs => xs.foldl max x

/-- `HybridRetriever._normalize_scores`: min-max scale a score list to
`[0, 1]`; an all-equal list maps to all `1.0`.  The source mutates each result
dict, adding a `..._normalized` key; the model returns the normalized scores
positionally. -/
def normalize_scores (scores : List ℚ) : List ℚ :=
  if scores = [] then []
  else
    let mn := listMin scores
    let mx := listMax scores
    if 0 < mx - mn then scores.map (fun s => (s - mn) / (mx - mn))
    else scores.map (fun _ => (1 : ℚ))

/-- First pass of `_merge_and_rerank`: `merged[content] = {**r,
"vector_score": r.get("similarity_normalized", 0), "bm25_score_norm": 0}`. -/
def vecEntry (p : VecResult × ℚ) : HybridResult :=
  ⟨p.1.content, p.1.url, p.1.title, p.1.similarity, p.2, 0, 0⟩

/-- Dict assignment keyed by `content`: overwrite in place, else append. -/
def dictInsert (acc : List HybridResult) (e : HybridResult) : List HybridResult :=
  if acc.any (fun o => o.content = e.content) then
    acc.map (fun o => if o.content = e.content then e else o)
  else acc ++ [e]

/-- A BM25-only merged entry: `{**r, "vector_score": 0,
"bm25_score_norm": normalized}` (no `similarity` key, read as `0`). -/
def bmEntry (p : BmResult × ℚ) : HybridResult :=
  ⟨p.1.content, p.1.url, p.1.title, 0, 0, p.2, 0⟩

/-- Second pass of `_merge_and_rerank`: update `bm25_score_norm` of an entry
already present under the same content, else append a BM25-only entry. -/
def bmInsert (acc : List HybridResult) (p : BmResult × ℚ) : List HybridResult :=
  if acc.any (fun o => o.content = p.1.content) then
    acc.map (fun o =>
      if o.content = p.1.content then { o with bm25_score_norm := p.2 } else o)
  else acc ++ [bmEntry p]

/-- The merge dictionary after both passes, in dict insertion order. -/
def mergedEntries (vec : List VecResult) (bm : List BmResult) : List HybridResult :=
  let vecN := vec.zip (normalize_scores (vec.map VecResult.similarity))
  let bmN := bm.zip (normalize_scores (bm.map BmResult.bm25_score))
  bmN.foldl bmInsert (vecN.foldl (fun acc p => dictInsert acc (vecEntry p)) [])

/-- Third pass: `doc["hybrid_score"] = alpha * vector_score +
(1 - alpha) * bm25_score_norm`. -/
def scoreEntry (alpha : ℚ) (e : HybridResult) : HybridResult :=
  { e with hybrid_score := alpha * e.vector_score + (1 - alpha) * e.bm25_score_norm }

/-- Stable descending insertion by `hybrid_score`: the new element goes before
the first element whose key is not larger.  `sortDescByHybrid` below is
extensionally Python's stable `sorted(..., key=hybrid_score, reverse=True)`. -/
def insertDesc (x : HybridResult) : List HybridResult → List HybridResult
  | [] => [x]
  | y :: ys =>
    if y.hybrid_score ≤ x.hybrid_score then x :: y :: ys else y :: insertDesc x ys

/-- Stable sort, descending by `hybrid_score` (Python `sorted` with
`reverse=True` is stable: equal keys keep their input order). -/
def sortDescByHybrid : List HybridResult → List HybridResult
  | [] => []
  | x :: xs => insertDesc x (sortDescByHybrid xs)

/-- `HybridRetriever._merge_and_rerank`. -/
def merge_and_rerank (alpha : ℚ) (vec : List VecResult) (bm : List BmResult) :
    List HybridResult :=
  sortDescByHybrid ((mergedEntries vec bm).map (scoreEntry alpha))

/-- Models Python truthiness of `top_k or default` (both `None` and `0` fall
back to the default). -/
def resolveTopK (top_k : Option ℕ) (dflt : ℕ) : ℕ :=
  match top_k with
  | some t => if t = 0 then dflt else t
  | none => dflt

/-- `HybridRetriever.retrieve`: vector search, BM25 search, merge/re-rank,
truncate to `final_top_k`.  The two searches are the collaborator parameters
`vector_retriever` and `bm25_search`. -/
def retrieve (alpha : ℚ) (vector_retriever : String → ℕ → List VecResult)
    (bm25_search : String → ℕ → List BmResult)
    (top_k_vector top_k_bm25 : ℕ) (query : String) (top_k : Option ℕ) :
    List HybridResult :=
  let final_top_k := resolveTopK top_k top_k_vector
  let vector_results := vector_retriever query top_k_vector
  let bm25_results := bm25_search query top_k_bm25
  (merge_and_rerank alpha vector_results bm25_results).take final_top_k

end HybridRetriever

/-! ## `src/api/rag/chain.py` — context and history formatting -/

/-- Models Python `l[-n:]`.  For `n ≥ 1` this is the last `n` elements (all of
them when `n` exceeds the length); for `n = 0`, `l[-0:]` is `l[0:]`, i.e. the
whole list. -/
def pyLastSlice {α : Type} (n : ℕ) (l : List α) : List α :=
  if n = 0 then l else l.drop (l.length - n)

namespace ConversationalRAGChain

/-- The HIGH tier: `d.get("similarity", 0) >= 0.75`. -/
def highDocs (docs : List Doc) : List Doc :=
  docs.filter (fun d => decide ((0.75 : ℚ) ≤ d.similarity))

/-- The MEDIUM tier: `0.5 <= d.get("similarity", 0) < 0.75`. -/
def mediumDocs (docs : List Doc) : List Doc :=
  docs.filter (fun d => decide ((0.5 : ℚ) ≤ d.similarity ∧ d.similarity < 0.75))

/-- The LOW tier: `d.get("similarity", 0) < 0.5`. -/
def lowDocs (docs : List Doc) : List Doc :=
  docs.filter (fun d => decide (d.similarity < (0.5 : ℚ)))

/-- The per-document block appended for a HIGH relevance source. -/
def highBlock (i : ℕ) (d : Doc) : String :=
  "[Source " ++ natToStr i ++ "] (" ++ formatPercent d.similarity ++ " match)\n" ++
  "Title: " ++ d.title ++ "\n" ++
  "URL: " ++ d.url ++ "\n" ++
  "Content: " ++ d.content ++ "\n"

/-- The per-document block appended for a MEDIUM relevance source. -/
def mediumBlock (i : ℕ) (d : Doc) : String :=
  "[Source " ++ natToStr i ++ "] (" ++ formatPercent d.similarity ++
    " match - use with caution)\n" ++
  "Title: " ++ d.title ++ "\n" ++
  "URL: " ++ d.url ++ "\n" ++
  "Content: " ++ d.content ++ "\n"

/-- The per-document block appended for a LOW relevance source (content
truncated to 300 characters, no URL line). -/
def lowBlock (i : ℕ) (d : Doc) : String :=
  let truncated :=
    if 300 < d.content.data.length then String.mk (d.content.data.take 300) ++ "..."
    else d.content
  "[Source " ++ natToStr i ++ "] (" ++ formatPercent d.similarity ++
    " - background only, do not cite)\n" ++
  "Title: " ++ d.title ++ "\n" ++
  "Content: " ++ truncated ++ "\n"

/-- Number the blocks of a tier with the running `source_index`, starting at
`i` and incrementing once per document. -/
def tierBlocks (mk : ℕ → Doc → String) : ℕ → List Doc → List String
  | _, [] => []
  | i, d :: ds => mk i d :: tierBlocks mk (i + 1) ds

/-- The fixed `## SOURCE USAGE RULES:` trailer of the context block. -/
def usageRules : List String :=
  ["\n## SOURCE USAGE RULES:",
   "- Prioritize HIGH RELEVANCE for direct statements",
   "- Use MEDIUM RELEVANCE for supporting details; mark medium confidence",
   "- Use LOW RELEVANCE only for background, never for specific facts",
   "- If all sources have relevance < 35%, omit the \x27Sources consulted\x27 section and acknowledge lack of info",
   "- Be clear about gaps and avoid speculation"]

/-- The `context_parts` list built by
`ConversationalRAGChain._format_context_with_quality_tiers` on a non-empty
document list: per-tier headers and numbered blocks (the LOW tier only when
fewer than three HIGH/MEDIUM sources exist), then the usage rules. -/
def contextParts (docs : List Doc) : List String :=
  let high := highDocs docs
  let medium := mediumDocs docs
  let low := lowDocs docs
  (if high ≠ [] then
    "## HIGH RELEVANCE SOURCES (Primary References)" ::
    "Use these sources for direct claims:\n" ::
    tierBlocks highBlock 1 high
   else []) ++
  (if medium ≠ [] then
    "\n## MEDIUM RELEVANCE SOURCES (Supportive Context)" ::
    "Use carefully and indicate medium confidence:\n" ::
    tierBlocks mediumBlock (high.length + 1) medium
   else []) ++
  (if low ≠ [] ∧ high.length + medium.length < 3 then
    "\n## LOW RELEVANCE SOURCES (Background Only)" ::
    "DO NOT CITE DIRECTLY. Background use only:\n" ::
    tierBlocks lowBlock (high.length + medium.length + 1) low
   else []) ++
  usageRules

/-- Exactly the per-document blocks occurring in `contextParts`, in order
(headers and trailer removed).  When the LOW tier is skipped by the
`len(high) + len(medium) < 3` guard, its blocks are absent. -/
def docBlocks (docs : List Doc) : List String :=
  let high := highDocs docs
  let medium := mediumDocs docs
  let low := lowDocs docs
  tierBlocks highBlock 1 high ++
  tierBlocks mediumBlock (high.length + 1) medium ++
  (if high.length + medium.length < 3 then
    tierBlocks lowBlock (high.length + medium.length + 1) low
   else [])

/-- `ConversationalRAGChain._format_context_with_quality_tiers`. -/
def format_context_with_quality_tiers (retrieved_docs : List Doc) : String :=
  if retrieved_docs = [] then "No relevant information was found in the database."
  else joinSep "\n" (contextParts retrieved_docs)

/-- `ConversationalRAGChain._format_chat_history`. -/
def format_chat_history (history : List (String × String)) (max_history : ℕ) : String :=
  if history = [] then "No prior conversation."
  else
    joinSep "\n\n"
      ((pyLastSlice max_history history).map
        (fun p => "User: " ++ p.1 ++ "\nAssistant: " ++ p.2))

end ConversationalRAGChain

/-! The spec-side description of the amended C4 claim: the documents that the
context block actually includes, in tier order (HIGH, then MEDIUM, then — only
when fewer than three HIGH/MEDIUM documents exist — LOW), each retaining
retrieval order within its tier. -/

/-- The documents included in the context block, in tier order. -/
def includedDocs (docs : List Doc) : List Doc :=
  let high := ConversationalRAGChain.highDocs docs
  let medium := ConversationalRAGChain.mediumDocs docs
  let low := ConversationalRAGChain.lowDocs docs
  high ++ medium ++ (if high.length + medium.length < 3 then low else [])

/-- The block a document receives according to its own tier. -/
def tierBlockFor (i : ℕ) (d : Doc) : String :=
  if (0.75 : ℚ) ≤ d.similarity then ConversationalRAGChain.highBlock i d
  else if (0.5 : ℚ) ≤ d.similarity then ConversationalRAGChain.mediumBlock i d
  else ConversationalRAGChain.lowBlock i d

/-! ## `src/api/rag/prompts.py` — `PromptTemplate` -/

namespace PromptTemplate

/-- The `META_INSTRUCTIONS` literal. -/
def META_INSTRUCTIONS : String :=
  "# META-INSTRUCTIONS (HIGHEST PRIORITY)\n" ++
  "These rules override all other instructions:\n" ++
  "\n" ++
  "1. **GROUNDING**: Only use information explicitly present in the retrieved CV context.\n" ++
  "2. **TRANSPARENCY**: Always cite specific sources for factual claims using [N] format.\n" ++
  "3. **UNCERTAINTY**: Make clear when information is missing or low relevance (<35%).\n" ++
  "4. **BOUNDARIES**: Only respond to questions about the candidates and CVs in the database.\n" ++
  "5. **PRIVACY**: Never invent contact details, salaries, dates, or personal data not present in the CVs.\n" ++
  "6. **LANGUAGE**: Always respond in English."

/-- The `DOMAIN_KNOWLEDGE` literal. -/
def DOMAIN_KNOWLEDGE : String :=
  "# DOMAIN KNOWLEDGE (Context for Understanding)\n" ++
  "The knowledge base is built from CVs (PDF resumes) stored in the feed directory.\n" ++
  "\n" ++
  "Common sections in a CV:\n" ++
  "- Professional summary and current role\n" ++
  "- Work experience (role, company, achievements, dates)\n" ++
  "- Technical skills and tools\n" ++
  "- Education and certifications\n" ++
  "- Languages and soft skills\n" ++
  "- Links to portfolios or profiles\n" ++
  "\n" ++
  "When summarizing a profile, highlight the latest role, years of experience, industries, and key skills."

/-- The `TASK_INSTRUCTIONS_EN` literal. -/
def TASK_INSTRUCTIONS_EN : String :=
  "# TASK INSTRUCTIONS\n" ++
  "Your goal is to answer questions and summarize information from the ingested CVs (experience, skills, education, achievements).\n" ++
  "\n" ++
  "## Response Requirements:\n" ++
  "1. **Structure**: Use markdown with clear sections when helpful.\n" ++
  "2. **Citations**: Include inline [N] references and a **Sources consulted** section when sources have ≥35% relevance.\n" ++
  "3. **Clarity**: Synthesize; don\x27t paste the CV verbatim. Call out missing data.\n" ++
  "4. **Tone**: Professional and concise.\n" ++
  "5. **Language**: Always respond in English.\n" ++
  "\n" ++
  "## Handling Cases:\n" ++
  "- **No useful context (<35%)**: \"I couldn\x27t find information about [topic] in the available CVs.\" Do not include sources.\n" ++
  "- **Partial information**: \"Based on what\x27s available, [short answer] [1]. Details about [gap] are missing.\"\n" ++
  "- **Off-topic**: \"I can only answer about the loaded candidates (experience, skills, education).\"\n" ++
  "- **Sensitive data not present** (salary, phone, address): state the CV does not include it without inventing.\n" ++
  "\n" ++
  "## Citation Format:\n" ++
  "- Inline: [N] after each grounded claim.\n" ++
  "- Footer:\n" ++
  "  ```\n" ++
  "  **Sources consulted:**\n" ++
  "  1. [Title] - [URL] (Relevance: XX%)\n" ++
  "  2. ...\n" ++
  "  ```\n" ++
  "\n" ++
  "## Length Guidance:\n" ++
  "- Simple questions: 2-4 sentences.\n" ++
  "- Skill/achievement lists: short bullets.\n" ++
  "- Complex/comparative: 2-3 paragraphs with headings.\n" ++
  "- Max 600 words; if more is needed, provide a summary and suggest a follow-up.\n" ++
  "\n" ++
  "## Complex Queries:\n" ++
  "1. Break the question down.\n" ++
  "2. Cover each part with evidence.\n" ++
  "3. Synthesize and cite the sources used."

/-- One entry of `FEW_SHOT_EXAMPLES`. -/
structure FewShotExample where
  name : String
  context : String
  question : String
  good_response : String
  bad_response : String
  reason : String
  deriving DecidableEq

/-- The `FEW_SHOT_EXAMPLES` literal list. -/
def FEW_SHOT_EXAMPLES : List FewShotExample :=
  [⟨"General profile",
    "[1] (Relevance: 0.91)\n" ++
    "Title: CV Evelyn Hamilton\n" ++
    "URL: cv://cv-01-evelyn-hamilton\n" ++
    "Content: Data engineer with 6 years of experience. Specializes in ingestion pipelines on AWS (Glue, Lambda), modeling in Redshift, and orchestration with Airflow. Led migration of legacy data to an S3 lake.\n" ++
    "[2] (Relevance: 0.72)\n" ++
    "Title: Key projects - Evelyn Hamilton\n" ++
    "URL: cv://cv-01-evelyn-hamilton\n" ++
    "Content: Implemented monitoring with CloudWatch and reduced storage costs by 18%. ",
    "What is the profile of Evelyn Hamilton?",
    "Evelyn Hamilton is a data engineer with 6 years of experience building ingestion pipelines on AWS (Glue, Lambda) and models in Redshift [1]. She led migrations to S3 data lakes and optimized monitoring with CloudWatch, cutting storage costs by 18% [1][2].\n" ++
    "\n" ++
    "**Sources consulted:**\n" ++
    "1. CV Evelyn Hamilton - cv://cv-01-evelyn-hamilton (Relevance: 91%)\n" ++
    "2. Key projects - cv://cv-01-evelyn-hamilton (Relevance: 72%)",
    "Evelyn works with data and technology.",
    "Bad: Vague summary without citations or concrete facts"⟩,
   ⟨"Technical skills",
    "[1] (Relevance: 0.88)\n" ++
    "Title: CV Jonathan Dyer\n" ++
    "URL: cv://cv-03-jonathan-dyer\n" ++
    "Content: Backend developer with 8 years in Python and FastAPI. Designs REST APIs, integrates with PostgreSQL and Redis. Experience with Docker and CI/CD in GitHub Actions.\n" ++
    "[2] (Relevance: 0.67)\n" ++
    "Title: Experience Jonathan Dyer\n" ++
    "URL: cv://cv-03-jonathan-dyer\n" ++
    "Content: Led a refactor to microservices, improving latency by 30%. ",
    "Summarize Jonathan Dyer\x27s main technical skills.",
    "Key technical skills for Jonathan Dyer [1][2]:\n" ++
    "- Backend in Python and FastAPI for REST APIs [1]\n" ++
    "- Databases: PostgreSQL and Redis [1]\n" ++
    "- Docker containers and CI/CD with GitHub Actions [1]\n" ++
    "- Microservice refactors with 30% latency improvements [2]\n" ++
    "\n" ++
    "**Sources consulted:**\n" ++
    "1. CV Jonathan Dyer - cv://cv-03-jonathan-dyer (Relevance: 88%)\n" ++
    "2. Experience Jonathan Dyer - cv://cv-03-jonathan-dyer (Relevance: 67%)",
    "He knows backend and microservices.",
    "Bad: Missing specifics, numbers, and citations"⟩,
   ⟨"Missing data",
    "[1] (Relevance: 0.22)\n" ++
    "Title: General extract\n" ++
    "URL: cv://general\n" ++
    "Content: Technical CVs with software and data experience.",
    "What is Caitlin Cannon\x27s current salary?",
    "I couldn\x27t find information about Caitlin Cannon\x27s salary in the available CVs.\n" ++
    "\n" ++
    "If you need details on her experience or skills, I can provide those.",
    "She earns 70,000€ a year.",
    "Bad: Fabricated salary and cites no evidence"⟩,
   ⟨"English query",
    "[1] (Relevance: 0.86)\n" ++
    "Title: CV Caitlin Cannon\n" ++
    "URL: cv://cv-02-caitlin-cannon\n" ++
    "Content: Product manager with 7+ years leading discovery, backlog prioritization, and KPI tracking. Worked with squads building B2B SaaS analytics. Tools: Jira, Figma, Mixpanel.",
    "What product experience does Caitlin Cannon have?",
    "Caitlin Cannon is a product manager with 7+ years leading discovery, prioritizing backlogs, and tracking KPIs for B2B SaaS analytics products [1]. She has worked with squads, using tools like Jira, Figma, and Mixpanel to align delivery with metrics [1].\n" ++
    "\n" ++
    "**Sources consulted:**\n" ++
    "1. CV Caitlin Cannon - cv://cv-02-caitlin-cannon (Relevance: 86%)",
    "She has a lot of product experience and uses many tools.",
    "Bad: Lacks specifics and citations, too generic"⟩]

/-- One formatted few-shot entry, with the running example number. -/
def formatExample (label : String) (i : ℕ) (e : FewShotExample) : String :=
  "\n**" ++ label ++ " " ++ natToStr i ++ "** - " ++ e.name ++ ":\n" ++
  "\n" ++
  "Available context:\n" ++ pyStrip e.context ++ "\n" ++
  "\n" ++
  "Question: " ++ e.question ++ "\n" ++
  "\n" ++
  "✅ **Correct answer**:\n" ++ pyStrip e.good_response ++ "\n" ++
  "\n" ++
  "❌ **Incorrect answer (do NOT do this)**:\n" ++ pyStrip e.bad_response ++ "\n" ++
  "Reason: " ++ e.reason ++ "\n"

/-- `enumerate(relevant_examples, 1)` over the formatter. -/
def formatExamplesFrom (label : String) : ℕ → List FewShotExample → List String
  | _, [] => []
  | i, e :: es => formatExample label i e :: formatExamplesFrom label (i + 1) es

/-- `PromptTemplate.format_few_shot_examples`. -/
def format_few_shot_examples (language : String) : String :=
  let label := if language = "en" then "Example" else "Ejemplo"
  joinSep "\n" (formatExamplesFrom label 1 FEW_SHOT_EXAMPLES)

/-- `PromptTemplate.create_system_prompt` (the `language`/`query_complexity`
arguments are accepted and ignored by the source: the English task
instructions are always used). -/
def create_system_prompt (language query_complexity : String) : String :=
  META_INSTRUCTIONS ++ "\n\n" ++ DOMAIN_KNOWLEDGE ++ "\n\n" ++ TASK_INSTRUCTIONS_EN

/-- `PromptTemplate.create_full_prompt`. -/
def create_full_prompt (context chat_history question language query_complexity : String)
    (include_few_shot : Bool) : String :=
  let system_prompt := create_system_prompt language query_complexity
  let few_shot :=
    if include_few_shot then
      "\n# EXAMPLE ANSWERS (Learn from these)\n" ++
      format_few_shot_examples language ++ "\n\n---\n"
    else ""
  let history_text := if chat_history = "" then "No prior conversation." else chat_history
  system_prompt ++ "\n\n" ++
  few_shot ++ "\n" ++
  "# RETRIEVED CONTEXT" ++ "\n" ++
  "The following sources were retrieved for your query (ordered by relevance):" ++ "\n\n" ++
  context ++ "\n\n---\n\n" ++
  "# CONVERSATION HISTORY" ++ "\n" ++
  history_text ++ "\n\n---\n\n" ++
  "# USER QUESTION" ++ "\n" ++
  question ++ "\n\n---\n\n" ++
  "# YOUR RESPONSE" ++ "\n" ++
  "Provide a well-structured, cited answer following the instructions above:"

end PromptTemplate

/-! ## `src/api/rag/prompts.py` — `QueryAnalyzer` -/

namespace QueryAnalyzer

/-- `QueryAnalyzer.detect_language`: always `"en"`. -/
def detect_language (query : String) : String := "en"

/-- `QueryAnalyzer.classify_complexity`. -/
def classify_complexity (query : String) : String :=
  let query_lower := strLower query
  let complex_markers :=
    ["compare", "difference", "pros and cons", "why", "how does", "process",
     "implement", "better than", "vs", "versus", "explain"]
  let moderate_markers :=
    ["features", "capabilities", "includes", "offers", "types of", "which"]
  if complex_markers.any (fun m => strContains query_lower m) then "complex"
  else if moderate_markers.any (fun m => strContains query_lower m) then "moderate"
  else "simple"

/-- `QueryAnalyzer.augment_short_query`: questions of at most two words are
extended with a topic phrase when the most recent answer mentions the topic
keyword (first match in the fixed `topics` dict order wins). -/
def augment_short_query (query : String) (chat_history : List (String × String)) :
    String × Bool :=
  if 2 < (pySplit query).length then (query, false)
  else
    match chat_history.getLast? with
    | none => (query, false)
    | some last =>
      let topics :=
        [("profile", "about the candidate profile"),
         ("experience", "about the professional experience"),
         ("skills", "about the candidate skills"),
         ("education", "about the education")]
      match topics.find? (fun t => strContains (strLower last.2) t.1) with
      | some t => (query ++ " " ++ t.2, true)
      | none => (query, false)

end QueryAnalyzer

/-! ## `src/api/rag/prompts.py` — `GuardrailValidator` -/

/-- Python `set(...)` of ints, modelled as a duplicate-free list in first
occurrence order. -/
def pySetOfNatFrom (seen : List ℕ) : List ℕ → List ℕ
  | [] => []
  | x :: xs => if x ∈ seen then pySetOfNatFrom seen xs else x :: pySetOfNatFrom (x :: seen) xs

/-- Python `set(...)` of ints. -/
def pySetOfNat (l : List ℕ) : List ℕ := pySetOfNatFrom [] l

/-- Python `set(...)` of words, modelled as a duplicate-free list in first
occurrence order (only its cardinality and membership are ever used). -/
def pySetOfStrFrom (seen : List String) : List String → List String
  | [] => []
  | x :: xs => if x ∈ seen then pySetOfStrFrom seen xs else x :: pySetOfStrFrom (x :: seen) xs

/-- Python `set(...)` of words. -/
def pySetOfStr (l : List String) : List String := pySetOfStrFrom [] l

/-- The numeric value of a run of decimal digits. -/
def digitsToNat (ds : List Char) : ℕ := ds.foldl (fun a c => a * 10 + (c.toNat - 48)) 0

/-- Fuel-driven scanner for `re.findall(r'\[\d+\]', response)` followed by
`int(re.search(r'\d+', c).group())`: left-to-right, non-overlapping matches of
a bracketed digit run, returning the cited numbers in occurrence order. -/
def find_citations_core : ℕ → List Char → List ℕ
  | 0, _ => []
  | _, [] => []
  | fuel + 1, c :: cs =>
    if c = '[' then
      let ds := cs.takeWhile Char.isDigit
      match cs.drop ds.length with
      | ']' :: rest =>
        if ds ≠ [] then digitsToNat ds :: find_citations_core fuel rest
        else find_citations_core fuel cs
      | _ => find_citations_core fuel cs
    else find_citations_core fuel cs

/-- The inline `[N]` citations of a response, as numbers, in order. -/
def find_citations (response : String) : List ℕ :=
  find_citations_core response.data.length response.data

/-- The distinct cited numbers: `cited_numbers = set(...)`. -/
def cited_numbers (response : String) : List ℕ := pySetOfNat (find_citations response)

/-- `available_numbers = set(range(1, len(sources) + 1))`. -/
def available_numbers (sources : List Doc) : List ℕ := List.range' 1 sources.length

/-- `unused_sources = available_numbers - cited_numbers` (ascending, matching
CPython's small-int set iteration order). -/
def unused_sources (response : String) (sources : List Doc) : List ℕ :=
  (available_numbers sources).filter (fun i => decide (i ∉ cited_numbers response))

/-- `phantom = cited_numbers - available_numbers` (first-occurrence order). -/
def phantom_citations (response : String) (sources : List Doc) : List ℕ :=
  (cited_numbers response).filter (fun n => decide (n ∉ available_numbers sources))

/-- The issues `GuardrailValidator.validate_response` can append.  The source
appends message strings, some with interpolated data; the model carries the
data as structured payloads so that issue identity and count are preserved. -/
inductive Issue where
  | tooShort
  | missingInlineCitations
  | missingFootnotes
  | sourcesNotCited (unused : List ℕ)
  | phantomCitations (phantom : List ℕ)
  | verbatimCopy
  | wrongLanguage (language : String)
  | tooLong (word_count : ℕ)
  | hallucinationIndicators (phrases : List String)
  | fabricatedClaims (claims : List String)
  deriving DecidableEq

namespace GuardrailValidator

/-- `"**Sources consulted:**" in response` (the only footnote marker). -/
def has_footnotes (response : String) : Bool :=
  strContains response "**Sources consulted:**"

/-- The copy-detection test: more than 0.8 of the response's distinct
(lowercased) words also occur among the context's words. -/
def copyRatioHigh (response context : String) : Bool :=
  let context_words := pySetOfStr (pySplit (strLower context))
  let response_words := pySetOfStr (pySplit (strLower response))
  let common := context_words.filter (fun w => decide (w ∈ response_words))
  let denom : ℕ := max response_words.length 1
  decide ((0.8 : ℚ) < (common.length : ℚ) / (denom : ℚ))

/-- The language-ratio test: fewer than 0.08 of the response's words belong to
the fixed English stop-word list. -/
def langRatioLow (response : String) : Bool :=
  let words := pySplit (strLower response)
  let target := ["the", "is", "are", "of", "and", "to", "a", "in", "for", "with"]
  let cnt := (words.filter (fun w => decide (w ∈ target))).length
  let denom : ℕ := max words.length 1
  decide ((cnt : ℚ) / (denom : ℚ) < (0.08 : ℚ))

/-- The fixed hallucination-marker phrase list (searched verbatim — capital
`I` included — inside the lowercased response, exactly as the source does). -/
def hallucination_phrases : List String :=
  ["in my knowledge", "as far as I know", "in my experience",
   "I think", "I imagine", "probably without"]

/-- The marker phrases found in the lowercased response. -/
def foundHallucinations (response : String) : List String :=
  hallucination_phrases.filter (fun p => strContains (strLower response) p)

/-- The issue list built by `GuardrailValidator.validate_response`, in the
order the source appends. -/
def validate_issues (response context : String) (sources : List Doc)
    (language : String) : List Issue :=
  (if response = "" ∨ (pyStrip response).length < 10 then [Issue.tooShort] else []) ++
  (if sources ≠ [] ∧ find_citations response = [] then [Issue.missingInlineCitations] else []) ++
  (if sources ≠ [] ∧ has_footnotes response = false then [Issue.missingFootnotes] else []) ++
  (if sources ≠ [] ∧ find_citations response ≠ [] then
    (if unused_sources response sources ≠ [] then
      [Issue.sourcesNotCited (unused_sources response sources)] else []) ++
    (if phantom_citations response sources ≠ [] then
      [Issue.phantomCitations (phantom_citations response sources)] else [])
   else []) ++
  (if context ≠ "" ∧ 50 < context.length ∧ copyRatioHigh response context = true then
    [Issue.verbatimCopy] else []) ++
  (if langRatioLow response = true then [Issue.wrongLanguage language] else []) ++
  (if 700 < (pySplit response).length then [Issue.tooLong (pySplit response).length] else []) ++
  (if foundHallucinations response ≠ [] then
    [Issue.hallucinationIndicators (foundHallucinations response)] else [])

/-- The dictionary returned by `GuardrailValidator.validate_response`. -/
structure ValidationResult where
  passed : Bool
  issues : List Issue
  score : ℚ
  inline_citations_count : ℕ
  has_footnotes : Bool
  deriving DecidableEq

/-- `GuardrailValidator.validate_response`. -/
def validate_response (response context : String) (sources : List Doc)
    (language : String) : ValidationResult :=
  let issues := validate_issues response context sources language
  ⟨issues.isEmpty, issues, max 0 (1 - (issues.length : ℚ) * 0.15),
   (find_citations response).length, has_footnotes response⟩

/-- `GuardrailValidator.detect_fabricated_claims`: one entry per fixed
regular-expression marker with at least one match in the lowercased response.
The source interpolates the matched texts into each entry; the model carries
the claim-type label (entry identity and count are what the callers use). -/
def detect_fabricated_claims (response language : String) : List String :=
  let rl := (strLower response).data
  let startsWithDigit : List Char → Bool := fun l =>
    match l with
    | [] => false
    | c :: _ => c.isDigit
  -- r'\d+[\s]*€' and r'\d+[\s]*\$': a digit run, optional whitespace, the sign
  let digitsWsChar : Char → List Char → Bool := fun sym l =>
    startsWithDigit l &&
      (match (l.dropWhile Char.isDigit).dropWhile Char.isWhitespace with
       | c :: _ => c = sym
       | [] => false)
  -- r'founded in \d{4}'
  let foundedIn : List Char → Bool := fun l =>
    charsPrefix "founded in ".data l &&
      (((l.drop 11).take 4).length = 4 && ((l.drop 11).take 4).all Char.isDigit)
  -- r'costs.*\d+' and r'price.*\d+' (`.` does not cross a newline)
  let wordThenDigit : String → List Char → Bool := fun word l =>
    charsPrefix word.data l &&
      ((l.drop word.data.length).takeWhile (fun c => c ≠ '\n')).any Char.isDigit
  -- r'\d+ employees' and r'\d+% of': a digit run followed by the literal
  let digitsThenLit : String → List Char → Bool := fun lit l =>
    startsWithDigit l && charsPrefix lit.data (l.dropWhile Char.isDigit)
  let existsAt : (List Char → Bool) → List Char → Bool := fun f =>
    let rec go : List Char → Bool
      | [] => f []
      | c :: cs => f (c :: cs) || go cs
    go
  let markers : List ((List Char → Bool) × String) :=
    [(digitsWsChar '€', "specific price in euros"),
     (digitsWsChar '$', "specific price in dollars"),
     (foundedIn, "founding year"),
     (wordThenDigit "costs", "cost statement"),
     (wordThenDigit "price", "price statement"),
     (digitsThenLit " employees", "employee count"),
     (digitsThenLit "% of", "specific percentage")]
  markers.filterMap (fun m => if existsAt m.1 rl then some m.2 else none)

end GuardrailValidator

/-! ## `src/api/rag/prompts.py` — `PromptOptimizer` -/

namespace PromptOptimizer

/-- The `analysis_metadata` dictionary of `PromptOptimizer.create_prompt`. -/
structure PromptMetadata where
  language : String
  complexity : String
  original_question : String
  augmented_question : Option String
  was_augmented : Bool
  prompt_length : ℕ
  deriving DecidableEq

/-- `PromptOptimizer.create_prompt`.  The constructor flags `use_few_shot`
and `auto_augment_short_queries` are explicit parameters (both default to
`True` in the source, which is what `ConversationalRAGChain` uses). -/
def create_prompt (use_few_shot auto_augment_short_queries : Bool)
    (context chat_history question : String)
    (chat_history_list : List (String × String)) : String × PromptMetadata :=
  let language := QueryAnalyzer.detect_language question
  let complexity := QueryAnalyzer.classify_complexity question
  let aug :=
    if auto_augment_short_queries ∧ chat_history_list ≠ [] then
      QueryAnalyzer.augment_short_query question chat_history_list
    else (question, false)
  let prompt :=
    PromptTemplate.create_full_prompt context chat_history aug.1 language complexity
      use_few_shot
  (prompt,
   ⟨language, complexity, question, if aug.2 then some aug.1 else none, aug.2,
    prompt.length⟩)

/-- The dictionary returned by `PromptOptimizer.validate_response`.  The
skip path of the source returns a reduced dict (`passed`, `issues`, `score`,
`validation_skipped` only); the model fills the absent keys with the neutral
values `0` / `false` / `[]`. -/
structure OptValidationResult where
  passed : Bool
  issues : List Issue
  score : ℚ
  inline_citations_count : ℕ
  has_footnotes : Bool
  fabricated_claims : List String
  has_fabricated_claims : Bool
  validation_skipped : Bool
  deriving DecidableEq

/-- `PromptOptimizer.validate_response`: the guardrail result, extended with
fabricated-claim detection; any fabricated claim appends one more issue,
forces `passed = False` and subtracts a further `0.3` from the score
(floored at `0`). -/
def validate_response (validate_output : Bool) (response context : String)
    (sources : List Doc) (language : String) : OptValidationResult :=
  if validate_output = false then ⟨true, [], 1, 0, false, [], false, true⟩
  else
    let v := GuardrailValidator.validate_response response context sources language
    let fab := GuardrailValidator.detect_fabricated_claims response language
    if fab ≠ [] then
      ⟨false, v.issues ++ [Issue.fabricatedClaims fab], max 0 (v.score - 0.3),
       v.inline_citations_count, v.has_footnotes, fab, true, false⟩
    else
      ⟨v.passed, v.issues, v.score, v.inline_citations_count, v.has_footnotes,
       fab, false, false⟩

end PromptOptimizer

/-! ## `src/api/rag/chain.py` — `ConversationalRAGChain.query` -/

namespace ConversationalRAGChain

/-- The constructor parameters of `ConversationalRAGChain` (and of the
`ResponseCache` / default `PromptOptimizer` it holds) that the modelled
behaviour depends on.  `cache_enabled` and `ttl` are the `ResponseCache`
fields; the three booleans are the `PromptOptimizer` flags (all `True` by
default). -/
structure Config where
  max_history : ℕ
  ttl : ℚ
  cache_enabled : Bool
  use_few_shot : Bool
  auto_augment_short_queries : Bool
  validate_output : Bool
  deriving DecidableEq

/-- The mutable state of one engine instance: the conversation history and
the (optional) response cache.  `cache = none` models `cache=None`. -/
structure EngineState where
  conversation_history : List (String × String)
  cache : Option CacheState
  deriving DecidableEq

/-- `ConversationalRAGChain._generate_response`: the external completion call
is the parameter `gen`; on success the content is stripped, on failure the
exception is caught and turned into an error-text answer. -/
def generate_response (gen : String → Except String String) (prompt : String) : String :=
  match gen prompt with
  | .ok content => pyStrip content
  | .error e => "Error generating response: " ++ e

/-- The non-cache-hit tail of `query`: retrieve, format context and history,
build the prompt, generate, validate (advisory), append to history and trim,
store in the cache when one is present, and return `(response, docs)`. -/
def queryCore (cfg : Config) (retriever : String → ℕ → List Doc)
    (gen : String → Except String String) (now : ℚ) (st : EngineState)
    (question : String) (k : ℕ) : (String × List Doc) × EngineState :=
  let retrieved_docs := retriever question k
  let context := format_context_with_quality_tiers retrieved_docs
  let chat_history := format_chat_history st.conversation_history cfg.max_history
  let pm :=
    PromptOptimizer.create_prompt cfg.use_few_shot cfg.auto_augment_short_queries
      context chat_history question st.conversation_history
  let response := generate_response gen pm.1
  let _validation :=
    PromptOptimizer.validate_response cfg.validate_output response context
      retrieved_docs pm.2.language
  let h1 := st.conversation_history ++ [(question, response)]
  let h2 := if cfg.max_history < h1.length then pyLastSlice cfg.max_history h1 else h1
  let cache' :=
    match st.cache with
    | some cs =>
      some (ResponseCache.set cfg.cache_enabled cfg.ttl cs question k response
        retrieved_docs now)
    | none => none
  ((response, retrieved_docs), ⟨h2, cache'⟩)

/-- `ConversationalRAGChain.query` (`metrics=None`, so all `trace` branches
coincide with the plain calls).  `top_k = none` models calling without the
optional argument; `k = top_k or 5`. -/
def query (cfg : Config) (retriever : String → ℕ → List Doc)
    (gen : String → Except String String) (now : ℚ) (st : EngineState)
    (question : String) (top_k : Option ℕ) : (String × List Doc) × EngineState :=
  let k := HybridRetriever.resolveTopK top_k 5
  match st.cache with
  | some cs =>
    let gr := ResponseCache.get cfg.cache_enabled cs question k now
    match gr.1 with
    | some cached => ((cached.response, cached.sources), ⟨st.conversation_history, some gr.2⟩)
    | none => queryCore cfg retriever gen now ⟨st.conversation_history, some gr.2⟩ question k
  | none => queryCore cfg retriever gen now st question k

/-- `ConversationalRAGChain.clear_history`. -/
def clear_history (st : EngineState) : EngineState := ⟨[], st.cache⟩

/-- A sequence of completed queries: each event supplies the question and the
completion-call behaviour for that query.  Returns the `(question, answer)`
pairs the engine produced, in order, and the final state. -/
def runTrace (cfg : Config) (retriever : String → ℕ → List Doc) (now : ℚ)
    (events : List (String × (String → Except String String)))
    (st : EngineState) : List (String × String) × EngineState :=
  match events with
  | [] => ([], st)
  | (q, gen) :: rest =>
    let r := query cfg retriever gen now st q none
    let t := runTrace cfg retriever now rest r.2
    ((q, r.1.1) :: t.1, t.2)

end ConversationalRAGChain

/-! ## Theorems -/

set_option maxRecDepth 1000000

/-! ### Helper lemmas -/

/-- Dict lookup after dict assignment of the same key. -/
theorem storeGet_storeSet_self (s : List (String × MemEntry)) (k : String)
    (e : MemEntry) : storeGet (storeSet s k e) k = some e := by
  induction s with
  | nil => simp [storeSet, storeGet]
  | cons hd tl ih =>
    by_cases hk : hd.1 = k
    · simp [storeSet, storeGet, hk]
    · simp [storeSet, storeGet, hk, ih]

/-- `ResponseCache.get` after `ResponseCache.set` of a key generating the same
cache key, within the TTL window: the freshly stored value is returned. -/
theorem responseCache_get_set (ttl : ℚ) (cs : CacheState) (q q' : String)
    (k : ℕ) (response : String) (sources : List Doc) (now now' : ℚ)
    (hkey : ResponseCache.generate_cache_key q' k = ResponseCache.generate_cache_key q k)
    (hfresh : now' ≤ now + ttl) :
    (ResponseCache.get true
      (ResponseCache.set true ttl cs q k response sources now) q' k now').1
      = some ⟨response, sources, now⟩ := by
  simp only [ResponseCache.get, ResponseCache.set, memSet, memGet, if_true, hkey]
  rw [storeGet_storeSet_self]
  simp only [not_lt.mpr hfresh, if_false]

/-- `tierBlocks` distributes over append, shifting the running index. -/
theorem tierBlocks_append (mk : ℕ → Doc → String) (i : ℕ) (l₁ l₂ : List Doc) :
    ConversationalRAGChain.tierBlocks mk i (l₁ ++ l₂)
      = ConversationalRAGChain.tierBlocks mk i l₁ ++
        ConversationalRAGChain.tierBlocks mk (i + l₁.length) l₂ := by
  induction l₁ generalizing i with
  | nil => simp [ConversationalRAGChain.tierBlocks]
  | cons d ds ih =>
    have harith : i + 1 + ds.length = i + (ds.length + 1) := by omega
    simp only [List.cons_append, ConversationalRAGChain.tierBlocks, List.length_cons,
      List.append_eq, ih, harith]

/-- Two block builders that agree on every member of a tier give the same
numbered blocks. -/
theorem tierBlocks_congr (mk₁ mk₂ : ℕ → Doc → String) (i : ℕ) (l : List Doc)
    (h : ∀ d ∈ l, ∀ j, mk₁ j d = mk₂ j d) :
    ConversationalRAGChain.tierBlocks mk₁ i l
      = ConversationalRAGChain.tierBlocks mk₂ i l := by
  induction l generalizing i with
  | nil => rfl
  | cons d ds ih =>
    simp only [ConversationalRAGChain.tierBlocks]
    rw [h d (List.mem_cons_self d ds) i,
      ih (i + 1) (fun x hx j => h x (List.mem_cons_of_mem d hx) j)]

/-! ### C3 — cache key normalization -/

/-- C3 is false as stated: `_normalize_query` lowercases and collapses
whitespace but strips no trailing punctuation, so after `set("skills", 5, ...)`
the lookup `get("Skills?", 5)` normalizes to `"skills?"`, derives a different
key, and misses. -/
theorem C3_cache_punctuation_counterexample :
    ResponseCache.normalize_query "Skills?" ≠ ResponseCache.normalize_query "skills"
    ∧ (ResponseCache.get true
        (ResponseCache.set true 3600 ⟨[], 0, 0, 0⟩ "skills" 5 "ANSWER" [] 0)
        "Skills?" 5 0).1 = none :=
  ⟨by decide, by decide⟩

/-- C3 (amended): a cache `set(q, k, answer, sources)` followed by
`get(q', k)` within the TTL window returns the stored `(answer, sources)` for
any `q'` that differs from `q` only in letter case or in surrounding/internal
whitespace (the cache key is derived from the lowercased, whitespace-collapsed
query plus `k`); trailing punctuation is **not** stripped, so `"Skills?"` does
not hit the entry stored under `"skills"`. -/
theorem C3_cache_normalization_amended (ttl : ℚ) (cs : CacheState)
    (q q' : String) (k : ℕ) (response : String) (sources : List Doc)
    (now now' : ℚ)
    (hnorm : ResponseCache.normalize_query q' = ResponseCache.normalize_query q)
    (hfresh : now' ≤ now + ttl) :
    (ResponseCache.get true
      (ResponseCache.set true ttl cs q k response sources now) q' k now').1
      = some ⟨response, sources, now⟩ := by
  apply responseCache_get_set
  · simp only [ResponseCache.generate_cache_key, hnorm]
  · exact hfresh

/-- Witness for the amended C3 at a concrete case/whitespace variant. -/
theorem C3_cache_normalization_amended_witness :
    (ResponseCache.normalize_query " SKILLS " = ResponseCache.normalize_query "skills"
      ∧ (0 : ℚ) ≤ 0 + 3600)
    ∧ (ResponseCache.get true
        (ResponseCache.set true 3600 ⟨[], 0, 0, 0⟩ "skills" 5 "ANSWER" [] 0)
        " SKILLS " 5 0).1 = some ⟨"ANSWER", [], 0⟩ :=
  ⟨⟨by decide, by norm_num⟩,
   C3_cache_normalization_amended 3600 ⟨[], 0, 0, 0⟩ "skills" " SKILLS " 5
     "ANSWER" [] 0 0 (by decide) (by norm_num)⟩

/-! ### C4 — context block contents and numbering -/

/-- C4 is false as stated: with three high-relevance documents retrieved ahead
of one low-relevance document, the low document's content appears nowhere in
the built context block — the `len(high) + len(medium) < 3` guard drops the
whole LOW tier. -/
theorem C4_context_drops_low_counterexample :
    "LOWCONTENT" ∈
      ([⟨"H1", "u1", "t1", 8/10⟩, ⟨"H2", "u2", "t2", 8/10⟩,
        ⟨"H3", "u3", "t3", 8/10⟩, ⟨"LOWCONTENT", "u4", "t4", 1/10⟩] :
        List Doc).map Doc.content
    ∧ strContains
        (ConversationalRAGChain.format_context_with_quality_tiers
          [⟨"H1", "u1", "t1", 8/10⟩, ⟨"H2", "u2", "t2", 8/10⟩,
           ⟨"H3", "u3", "t3", 8/10⟩, ⟨"LOWCONTENT", "u4", "t4", 1/10⟩])
        "LOWCONTENT" = false :=
  ⟨by decide, by with_unfolding_all decide⟩

/-- C4 (amended): for every non-empty retrieved list the context block is the
join of `contextParts`, whose per-document blocks are exactly the blocks of
`includedDocs` — the HIGH (similarity ≥ 0.75) documents, then the MEDIUM
(0.5 ≤ s < 0.75) ones, then, only when fewer than three HIGH/MEDIUM documents
exist, the LOW ones — numbered `[Source 1]`, `[Source 2]`, … sequentially in
that tier order, each tier preserving retrieval order.  (LOW documents are
otherwise dropped, and the numbering follows tier order, not retrieval
order.) -/
theorem C4_context_tiered_amended (docs : List Doc) (hne : docs ≠ []) :
    ConversationalRAGChain.format_context_with_quality_tiers docs
      = joinSep "\n" (ConversationalRAGChain.contextParts docs)
    ∧ ConversationalRAGChain.docBlocks docs
      = ConversationalRAGChain.tierBlocks tierBlockFor 1 (includedDocs docs) := by
  constructor
  · simp [ConversationalRAGChain.format_context_with_quality_tiers, hne]
  · have hhigh : ∀ d ∈ ConversationalRAGChain.highDocs docs, ∀ j,
        tierBlockFor j d = ConversationalRAGChain.highBlock j d := by
      intro d hd j
      have := List.of_mem_filter hd
      have hsim : (0.75 : ℚ) ≤ d.similarity := of_decide_eq_true this
      simp [tierBlockFor, hsim]
    have hmed : ∀ d ∈ ConversationalRAGChain.mediumDocs docs, ∀ j,
        tierBlockFor j d = ConversationalRAGChain.mediumBlock j d := by
      intro d hd j
      have := List.of_mem_filter hd
      have hsim : (0.5 : ℚ) ≤ d.similarity ∧ d.similarity < 0.75 :=
        of_decide_eq_true this
      have hnot : ¬ (0.75 : ℚ) ≤ d.similarity := not_le.mpr hsim.2
      simp [tierBlockFor, hnot, hsim.1]
    have hlow : ∀ d ∈ ConversationalRAGChain.lowDocs docs, ∀ j,
        tierBlockFor j d = ConversationalRAGChain.lowBlock j d := by
      intro d hd j
      have := List.of_mem_filter hd
      have hsim : d.similarity < (0.5 : ℚ) := of_decide_eq_true this
      have hnot1 : ¬ (0.75 : ℚ) ≤ d.similarity := by
        intro h
        exact absurd (lt_of_le_of_lt h hsim) (by norm_num)
      have hnot2 : ¬ (0.5 : ℚ) ≤ d.similarity := not_le.mpr hsim
      simp [tierBlockFor, hnot1, hnot2]
    simp only [ConversationalRAGChain.docBlocks, includedDocs]
    set H := ConversationalRAGChain.highDocs docs with hH
    set M := ConversationalRAGChain.mediumDocs docs with hM
    set L := ConversationalRAGChain.lowDocs docs with hL
    by_cases hc : H.length + M.length < 3
    · simp only [hc, if_true]
      rw [tierBlocks_append tierBlockFor 1 (H ++ M) L,
        tierBlocks_append tierBlockFor 1 H M,
        tierBlocks_congr tierBlockFor ConversationalRAGChain.highBlock 1 H hhigh,
        tierBlocks_congr tierBlockFor ConversationalRAGChain.mediumBlock _ M hmed,
        tierBlocks_congr tierBlockFor ConversationalRAGChain.lowBlock _ L hlow]
      have e1 : 1 + H.length = H.length + 1 := by omega
      have e2 : 1 + (H ++ M).length = H.length + M.length + 1 := by
        rw [List.length_append]; omega
      rw [e1, e2]
    · simp only [hc, if_false]
      rw [show (H ++ M ++ [] : List Doc) = H ++ M by simp,
        tierBlocks_append tierBlockFor 1 H M,
        tierBlocks_congr tierBlockFor ConversationalRAGChain.highBlock 1 H hhigh,
        tierBlocks_congr tierBlockFor ConversationalRAGChain.mediumBlock _ M hmed]
      have e1 : 1 + H.length = H.length + 1 := by omega
      rw [e1]
      simp

/-- Witness for the amended C4 at a concrete non-empty document list. -/
theorem C4_context_tiered_amended_witness :
    (([⟨"X", "u", "t", 6/10⟩] : List Doc) ≠ [])
    ∧ (ConversationalRAGChain.format_context_with_quality_tiers
        [⟨"X", "u", "t", 6/10⟩]
        = joinSep "\n" (ConversationalRAGChain.contextParts [⟨"X", "u", "t", 6/10⟩])
      ∧ ConversationalRAGChain.docBlocks [⟨"X", "u", "t", 6/10⟩]
        = ConversationalRAGChain.tierBlocks tierBlockFor 1
            (includedDocs [⟨"X", "u", "t", 6/10⟩])) :=
  ⟨by decide, C4_context_tiered_amended [⟨"X", "u", "t", 6/10⟩] (by decide)⟩

/-! ### C9 — citation guardrails -/

/-- An issue among the built issue list forces `passed = False`. -/
theorem validate_passed_false_of_mem {response context : String}
    {sources : List Doc} {language : String} {i : Issue}
    (h : i ∈ GuardrailValidator.validate_issues response context sources language) :
    (GuardrailValidator.validate_response response context sources language).passed
      = false := by
  simp only [GuardrailValidator.validate_response]
  exact List.isEmpty_eq_false.mpr (List.ne_nil_of_mem h)

/-- C9: for every answer validated against a non-empty source list — if it
carries no inline `[N]` citation, validation fails with the
missing-inline-citations issue; if it carries citations, every cited number
exceeding `count(sources)` lands in the phantom set and yields the
phantom-citation issue, and every source index in `1..count(sources)` that is
never cited lands in the unused set and yields the unused-source issue; each
such issue makes `passed` false. -/
theorem C9_citation_guardrails (response context : String) (sources : List Doc)
    (language : String) (hs : sources ≠ []) :
    (find_citations response = [] →
      Issue.missingInlineCitations ∈
          (GuardrailValidator.validate_response response context sources language).issues
        ∧ (GuardrailValidator.validate_response response context sources language).passed
            = false)
    ∧ (find_citations response ≠ [] →
        (∀ n ∈ cited_numbers response, sources.length < n →
          n ∈ phantom_citations response sources
          ∧ Issue.phantomCitations (phantom_citations response sources) ∈
              (GuardrailValidator.validate_response response context sources language).issues
          ∧ (GuardrailValidator.validate_response response context sources
              language).passed = false)
        ∧ (∀ i, 1 ≤ i → i ≤ sources.length → i ∉ cited_numbers response →
          i ∈ unused_sources response sources
          ∧ Issue.sourcesNotCited (unused_sources response sources) ∈
              (GuardrailValidator.validate_response response context sources language).issues
          ∧ (GuardrailValidator.validate_response response context sources
              language).passed = false)) := by
  constructor
  · intro hcit
    have hmem : Issue.missingInlineCitations ∈
        GuardrailValidator.validate_issues response context sources language := by
      simp [GuardrailValidator.validate_issues, hs, hcit]
    exact ⟨hmem, validate_passed_false_of_mem hmem⟩
  · intro hcit
    constructor
    · intro n hn hgt
      have hnotav : n ∉ available_numbers sources := by
        simp only [available_numbers, List.mem_range'_1]
        omega
      have hph : n ∈ phantom_citations response sources := by
        simp only [phantom_citations, List.mem_filter]
        exact ⟨hn, by simp [hnotav]⟩
      have hne : phantom_citations response sources ≠ [] := List.ne_nil_of_mem hph
      have hmem : Issue.phantomCitations (phantom_citations response sources) ∈
          GuardrailValidator.validate_issues response context sources language := by
        simp [GuardrailValidator.validate_issues, hs, hcit, hne]
      exact ⟨hph, hmem, validate_passed_false_of_mem hmem⟩
    · intro i h1 h2 hnot
      have hav : i ∈ available_numbers sources := by
        simp only [available_numbers, List.mem_range'_1]
        omega
      have hun : i ∈ unused_sources response sources := by
        simp only [unused_sources, List.mem_filter]
        exact ⟨hav, by simp [hnot]⟩
      have hne : unused_sources response sources ≠ [] := List.ne_nil_of_mem hun
      have hmem : Issue.sourcesNotCited (unused_sources response sources) ∈
          GuardrailValidator.validate_issues response context sources language := by
        simp [GuardrailValidator.validate_issues, hs, hcit, hne]
      exact ⟨hun, hmem, validate_passed_false_of_mem hmem⟩

/-- Witness for C9 at a concrete non-empty source list. -/
theorem C9_citation_guardrails_witness :
    (([⟨"c", "u", "t", 1⟩] : List Doc) ≠ [])
    ∧ ((find_citations "no citations here at all" = [] →
        Issue.missingInlineCitations ∈
            (GuardrailValidator.validate_response "no citations here at all" ""
              [⟨"c", "u", "t", 1⟩] "en").issues
          ∧ (GuardrailValidator.validate_response "no citations here at all" ""
              [⟨"c", "u", "t", 1⟩] "en").passed = false)
      ∧ (find_citations "no citations here at all" ≠ [] →
          (∀ n ∈ cited_numbers "no citations here at all",
            ([⟨"c", "u", "t", 1⟩] : List Doc).length < n →
            n ∈ phantom_citations "no citations here at all" [⟨"c", "u", "t", 1⟩]
            ∧ Issue.phantomCitations
                (phantom_citations "no citations here at all" [⟨"c", "u", "t", 1⟩]) ∈
                (GuardrailValidator.validate_response "no citations here at all" ""
                  [⟨"c", "u", "t", 1⟩] "en").issues
            ∧ (GuardrailValidator.validate_response "no citations here at all" ""
                [⟨"c", "u", "t", 1⟩] "en").passed = false)
          ∧ (∀ i, 1 ≤ i → i ≤ ([⟨"c", "u", "t", 1⟩] : List Doc).length →
              i ∉ cited_numbers "no citations here at all" →
              i ∈ unused_sources "no citations here at all" [⟨"c", "u", "t", 1⟩]
              ∧ Issue.sourcesNotCited
                  (unused_sources "no citations here at all" [⟨"c", "u", "t", 1⟩]) ∈
                  (GuardrailValidator.validate_response "no citations here at all" ""
                    [⟨"c", "u", "t", 1⟩] "en").issues
              ∧ (GuardrailValidator.validate_response "no citations here at all" ""
                  [⟨"c", "u", "t", 1⟩] "en").passed = false))) :=
  ⟨by decide,
   C9_citation_guardrails "no citations here at all" "" [⟨"c", "u", "t", 1⟩] "en"
     (by decide)⟩

/-! ### C10 — validation score and pass flag -/

/-- C10: for every validation run (with validation enabled), the base
guardrail score is `max(0, 1 - 0.15 * issueCount)` over the issues found
before fabricated-claim detection; the final score subtracts a further `0.3`
(floored at 0) exactly when fabricated claims were detected; and the final
`passed` is true iff the pre-fabrication issue count is zero and no
fabricated claim was found (any fabricated claim forces `passed = false` by
appending one more failing issue). -/
theorem C10_validation_score (response context : String) (sources : List Doc)
    (language : String) :
    ((GuardrailValidator.validate_response response context sources language).score
      = max 0 (1 - 0.15 *
          ((GuardrailValidator.validate_issues response context sources
            language).length : ℚ)))
    ∧ ((PromptOptimizer.validate_response true response context sources language).score
      = if GuardrailValidator.detect_fabricated_claims response language ≠ [] then
          max 0 ((GuardrailValidator.validate_response response context sources
            language).score - 0.3)
        else
          (GuardrailValidator.validate_response response context sources language).score)
    ∧ ((PromptOptimizer.validate_response true response context sources language).passed
        = true
      ↔ (GuardrailValidator.validate_issues response context sources language = []
        ∧ GuardrailValidator.detect_fabricated_claims response language = []))
    ∧ ((PromptOptimizer.validate_response true response context sources language).issues
      = (GuardrailValidator.validate_response response context sources language).issues
        ++ (if GuardrailValidator.detect_fabricated_claims response language ≠ [] then
            [Issue.fabricatedClaims
              (GuardrailValidator.detect_fabricated_claims response language)]
           else [])) := by
  refine ⟨?_, ?_, ?_, ?_⟩
  · simp only [GuardrailValidator.validate_response]
    ring_nf
  · by_cases hf : GuardrailValidator.detect_fabricated_claims response language = []
    · simp [PromptOptimizer.validate_response, hf]
    · simp [PromptOptimizer.validate_response, hf]
  · by_cases hf : GuardrailValidator.detect_fabricated_claims response language = []
    · simp only [PromptOptimizer.validate_response, hf]
      simp [GuardrailValidator.validate_response, List.isEmpty_iff]
    · simp [PromptOptimizer.validate_response, hf]
  · by_cases hf : GuardrailValidator.detect_fabricated_claims response language = []
    · simp [PromptOptimizer.validate_response, hf]
    · simp [PromptOptimizer.validate_response, hf]

/-! ### History-slicing helper lemmas -/

/-- Dropping fewer elements than the length preserves the last element. -/
theorem getLast?_drop {α : Type} (l : List α) (n : ℕ) (h : n < l.length) :
    (l.drop n).getLast? = l.getLast? := by
  induction l generalizing n with
  | nil => simp at h
  | cons x xs ih =>
    cases n with
    | zero => rfl
    | succ n =>
      cases xs with
      | nil => simp at h
      | cons y ys =>
        rw [List.drop_succ_cons, List.getLast?_cons_cons]
        exact ih n (by simpa using h)

/-- The conditional trim of `query` is unconditionally a `pyLastSlice`. -/
theorem historyTrim_eq {α : Type} (m : ℕ) (l : List α) :
    (if m < l.length then pyLastSlice m l else l) = pyLastSlice m l := by
  by_cases h : m < l.length
  · simp [h]
  · simp only [h, if_false, pyLastSlice]
    by_cases hm : m = 0
    · simp [hm]
    · have hz : l.length - m = 0 := by omega
      simp [hm, hz]

/-- The trimmed history still ends in the just-appended pair. -/
theorem trimmed_getLast {α : Type} (m : ℕ) (l : List α) (a : α) :
    (if m < (l ++ [a]).length then pyLastSlice m (l ++ [a]) else l ++ [a]).getLast?
      = some a := by
  rw [historyTrim_eq]
  by_cases hm : m = 0
  · simp [pyLastSlice, hm]
  · simp only [pyLastSlice, hm, if_false]
    by_cases hlen : (l ++ [a]).length - m = 0
    · rw [hlen]
      simp
    · have hlt : (l ++ [a]).length - m < (l ++ [a]).length := by
        simp only [List.length_append, List.length_cons, List.length_nil] at hlen ⊢
        omega
      rw [getLast?_drop _ _ hlt]
      exact List.getLast?_concat l

/-- Re-slicing an already sliced prefix agrees with slicing the whole list:
the last-`m` window only depends on the last `m` elements. -/
theorem pyLastSlice_append {α : Type} (m : ℕ) (xs ys : List α) :
    pyLastSlice m (pyLastSlice m xs ++ ys) = pyLastSlice m (xs ++ ys) := by
  by_cases hm : m = 0
  · simp [pyLastSlice, hm]
  · simp only [pyLastSlice, hm, if_false, List.length_append, List.length_drop]
    rw [List.drop_append_eq_append_drop, List.drop_append_eq_append_drop,
      List.drop_drop, List.length_drop]
    congr 1
    · congr 1
      omega
    · congr 1
      omega

/-- Length of the slice. -/
theorem pyLastSlice_length {α : Type} (m : ℕ) (l : List α) (hm : m ≠ 0) :
    (pyLastSlice m l).length = l.length - (l.length - m) := by
  simp [pyLastSlice, hm]

/-- On a cache miss, `query` is `queryCore` on the state whose cache carries
the miss-updated statistics. -/
theorem query_eq_queryCore_of_miss (cfg : ConversationalRAGChain.Config)
    (retriever : String → ℕ → List Doc) (gen : String → Except String String)
    (now : ℚ) (st : ConversationalRAGChain.EngineState) (question : String)
    (top_k : Option ℕ) (cs : CacheState) (hcache : st.cache = some cs)
    (hmiss : (ResponseCache.get cfg.cache_enabled cs question
      (HybridRetriever.resolveTopK top_k 5) now).1 = none) :
    ConversationalRAGChain.query cfg retriever gen now st question top_k
      = ConversationalRAGChain.queryCore cfg retriever gen now
          ⟨st.conversation_history,
           some (ResponseCache.get cfg.cache_enabled cs question
             (HybridRetriever.resolveTopK top_k 5) now).2⟩
          question (HybridRetriever.resolveTopK top_k 5) := by
  simp only [ConversationalRAGChain.query, hcache, hmiss]

/-! ### C8 — generation failure degrades gracefully -/

/-- C8: when the completion call fails, `query` completes normally: the
returned answer embeds the error text, the retrieved documents are returned
as sources, the pair is appended to history, and (on the enabled-cache miss
path) the synthetic answer is stored in the cache like any other answer. -/
theorem C8_generation_failure_graceful (cfg : ConversationalRAGChain.Config)
    (retriever : String → ℕ → List Doc) (e : String) (now : ℚ)
    (st : ConversationalRAGChain.EngineState) (question : String)
    (top_k : Option ℕ) (cs : CacheState)
    (hcache : st.cache = some cs)
    (henabled : cfg.cache_enabled = true)
    (hmiss : (ResponseCache.get cfg.cache_enabled cs question
      (HybridRetriever.resolveTopK top_k 5) now).1 = none) :
    (ConversationalRAGChain.query cfg retriever (fun _ => .error e) now st question
      top_k).1.1 = "Error generating response: " ++ e
    ∧ (ConversationalRAGChain.query cfg retriever (fun _ => .error e) now st question
        top_k).1.2 = retriever question (HybridRetriever.resolveTopK top_k 5)
    ∧ (ConversationalRAGChain.query cfg retriever (fun _ => .error e) now st question
        top_k).2.conversation_history.getLast?
      = some (question, "Error generating response: " ++ e)
    ∧ ∃ cs', (ConversationalRAGChain.query cfg retriever (fun _ => .error e) now st
        question top_k).2.cache = some cs'
      ∧ storeGet cs'.store
          (ResponseCache.generate_cache_key question
            (HybridRetriever.resolveTopK top_k 5))
        = some ⟨⟨"Error generating response: " ++ e,
                 retriever question (HybridRetriever.resolveTopK top_k 5), now⟩,
                now + cfg.ttl⟩ := by
  rw [query_eq_queryCore_of_miss cfg retriever (fun _ => .error e) now st question
    top_k cs hcache hmiss]
  refine ⟨rfl, rfl, ?_, ?_⟩
  · exact trimmed_getLast cfg.max_history st.conversation_history
      (question, "Error generating response: " ++ e)
  · refine ⟨_, rfl, ?_⟩
    simp only [ResponseCache.set, henabled, if_true, memSet]
    exact storeGet_storeSet_self _ _ _

/-- Witness for C8 at a concrete engine state. -/
theorem C8_generation_failure_graceful_witness :
    ((⟨[], some ⟨[], 0, 0, 0⟩⟩ : ConversationalRAGChain.EngineState).cache
        = some ⟨[], 0, 0, 0⟩
      ∧ (⟨10, 3600, true, true, true, true⟩ :
          ConversationalRAGChain.Config).cache_enabled = true
      ∧ (ResponseCache.get true ⟨[], 0, 0, 0⟩ "q"
          (HybridRetriever.resolveTopK none 5) 0).1 = none)
    ∧ ((ConversationalRAGChain.query ⟨10, 3600, true, true, true, true⟩
        (fun _ _ => [⟨"c", "u", "t", 1⟩]) (fun _ => .error "boom") 0
        ⟨[], some ⟨[], 0, 0, 0⟩⟩ "q" none).1.1
          = "Error generating response: " ++ "boom"
      ∧ (ConversationalRAGChain.query ⟨10, 3600, true, true, true, true⟩
          (fun _ _ => [⟨"c", "u", "t", 1⟩]) (fun _ => .error "boom") 0
          ⟨[], some ⟨[], 0, 0, 0⟩⟩ "q" none).1.2
          = (fun (_ : String) (_ : ℕ) => [(⟨"c", "u", "t", 1⟩ : Doc)]) "q"
              (HybridRetriever.resolveTopK none 5)
      ∧ (ConversationalRAGChain.query ⟨10, 3600, true, true, true, true⟩
          (fun _ _ => [⟨"c", "u", "t", 1⟩]) (fun _ => .error "boom") 0
          ⟨[], some ⟨[], 0, 0, 0⟩⟩ "q" none).2.conversation_history.getLast?
          = some ("q", "Error generating response: " ++ "boom")
      ∧ ∃ cs', (ConversationalRAGChain.query ⟨10, 3600, true, true, true, true⟩
          (fun _ _ => [⟨"c", "u", "t", 1⟩]) (fun _ => .error "boom") 0
          ⟨[], some ⟨[], 0, 0, 0⟩⟩ "q" none).2.cache = some cs'
        ∧ storeGet cs'.store
            (ResponseCache.generate_cache_key "q" (HybridRetriever.resolveTopK none 5))
          = some ⟨⟨"Error generating response: " ++ "boom",
                   (fun (_ : String) (_ : ℕ) => [(⟨"c", "u", "t", 1⟩ : Doc)]) "q"
                     (HybridRetriever.resolveTopK none 5), 0⟩,
                  0 + (3600 : ℚ)⟩) :=
  ⟨⟨rfl, rfl, by decide⟩,
   C8_generation_failure_graceful ⟨10, 3600, true, true, true, true⟩
     (fun _ _ => [⟨"c", "u", "t", 1⟩]) "boom" 0 ⟨[], some ⟨[], 0, 0, 0⟩⟩ "q" none
     ⟨[], 0, 0, 0⟩ rfl rfl (by decide)⟩

/-! ### C5 — no sources-footer stripping -/

/-- C5 is false as stated: with a model answer that ends in a
`**Sources consulted:**` footer, the engine returns the generated text whole —
the footer marker is still present in the returned answer, so no truncation at
a footer marker happens. -/
theorem C5_footer_not_stripped_counterexample :
    (ConversationalRAGChain.query ⟨10, 3600, true, true, true, true⟩
      (fun _ _ => [⟨"c", "u", "T", 9/10⟩])
      (fun _ => .ok "Ans [1]\n\n**Sources consulted:**\n1. T - u") 0
      ⟨[], none⟩ "q" none).1.1
      = "Ans [1]\n\n**Sources consulted:**\n1. T - u"
    ∧ strContains
        (ConversationalRAGChain.query ⟨10, 3600, true, true, true, true⟩
          (fun _ _ => [⟨"c", "u", "T", 9/10⟩])
          (fun _ => .ok "Ans [1]\n\n**Sources consulted:**\n1. T - u") 0
          ⟨[], none⟩ "q" none).1.1
        "**Sources consulted:**" = true :=
  ⟨by with_unfolding_all decide, by with_unfolding_all decide⟩

/-- C5 (amended): on the non-cache-hit path the final answer is exactly the
output of the generation step — the success content whitespace-stripped, with
no footer-marker search or truncation — and that same string is what is
appended to history and stored in the cache. -/
theorem C5_answer_unmodified_amended (cfg : ConversationalRAGChain.Config)
    (retriever : String → ℕ → List Doc) (gen : String → Except String String)
    (now : ℚ) (st : ConversationalRAGChain.EngineState) (question : String)
    (top_k : Option ℕ) (cs : CacheState)
    (hcache : st.cache = some cs)
    (henabled : cfg.cache_enabled = true)
    (hmiss : (ResponseCache.get cfg.cache_enabled cs question
      (HybridRetriever.resolveTopK top_k 5) now).1 = none) :
    (ConversationalRAGChain.query cfg retriever gen now st question top_k).1.1
      = ConversationalRAGChain.generate_response gen
          (PromptOptimizer.create_prompt cfg.use_few_shot
            cfg.auto_augment_short_queries
            (ConversationalRAGChain.format_context_with_quality_tiers
              (retriever question (HybridRetriever.resolveTopK top_k 5)))
            (ConversationalRAGChain.format_chat_history st.conversation_history
              cfg.max_history)
            question st.conversation_history).1
    ∧ (ConversationalRAGChain.query cfg retriever gen now st question
        top_k).2.conversation_history.getLast?
      = some (question,
          (ConversationalRAGChain.query cfg retriever gen now st question top_k).1.1)
    ∧ ∃ cs', (ConversationalRAGChain.query cfg retriever gen now st question
        top_k).2.cache = some cs'
      ∧ storeGet cs'.store
          (ResponseCache.generate_cache_key question
            (HybridRetriever.resolveTopK top_k 5))
        = some ⟨⟨(ConversationalRAGChain.query cfg retriever gen now st question
                    top_k).1.1,
                 retriever question (HybridRetriever.resolveTopK top_k 5), now⟩,
                now + cfg.ttl⟩ := by
  rw [query_eq_queryCore_of_miss cfg retriever gen now st question top_k cs hcache
    hmiss]
  refine ⟨rfl, ?_, ?_⟩
  · exact trimmed_getLast cfg.max_history st.conversation_history _
  · refine ⟨_, rfl, ?_⟩
    simp only [ResponseCache.set, henabled, if_true, memSet]
    exact storeGet_storeSet_self _ _ _

/-- Witness for the amended C5 at a concrete engine state. -/
theorem C5_answer_unmodified_amended_witness :
    ((⟨[], some ⟨[], 0, 0, 0⟩⟩ : ConversationalRAGChain.EngineState).cache
        = some ⟨[], 0, 0, 0⟩
      ∧ (⟨10, 3600, true, true, true, true⟩ :
          ConversationalRAGChain.Config).cache_enabled = true
      ∧ (ResponseCache.get true ⟨[], 0, 0, 0⟩ "q"
          (HybridRetriever.resolveTopK none 5) 0).1 = none)
    ∧ ((ConversationalRAGChain.query ⟨10, 3600, true, true, true, true⟩
        (fun _ _ => []) (fun _ => .ok "A [1]") 0 ⟨[], some ⟨[], 0, 0, 0⟩⟩
        "q" none).1.1
        = ConversationalRAGChain.generate_response (fun _ => .ok "A [1]")
            (PromptOptimizer.create_prompt true true
              (ConversationalRAGChain.format_context_with_quality_tiers
                ((fun (_ : String) (_ : ℕ) => ([] : List Doc)) "q"
                  (HybridRetriever.resolveTopK none 5)))
              (ConversationalRAGChain.format_chat_history [] 10) "q" []).1
      ∧ (ConversationalRAGChain.query ⟨10, 3600, true, true, true, true⟩
          (fun _ _ => []) (fun _ => .ok "A [1]") 0 ⟨[], some ⟨[], 0, 0, 0⟩⟩
          "q" none).2.conversation_history.getLast?
        = some ("q",
            (ConversationalRAGChain.query ⟨10, 3600, true, true, true, true⟩
              (fun _ _ => []) (fun _ => .ok "A [1]") 0 ⟨[], some ⟨[], 0, 0, 0⟩⟩
              "q" none).1.1)
      ∧ ∃ cs', (ConversationalRAGChain.query ⟨10, 3600, true, true, true, true⟩
          (fun _ _ => []) (fun _ => .ok "A [1]") 0 ⟨[], some ⟨[], 0, 0, 0⟩⟩
          "q" none).2.cache = some cs'
        ∧ storeGet cs'.store
            (ResponseCache.generate_cache_key "q" (HybridRetriever.resolveTopK none 5))
          = some ⟨⟨(ConversationalRAGChain.query ⟨10, 3600, true, true, true, true⟩
                      (fun _ _ => []) (fun _ => .ok "A [1]") 0
                      ⟨[], some ⟨[], 0, 0, 0⟩⟩ "q" none).1.1,
                   (fun (_ : String) (_ : ℕ) => ([] : List Doc)) "q"
                     (HybridRetriever.resolveTopK none 5), 0⟩,
                  0 + (3600 : ℚ)⟩) :=
  ⟨⟨rfl, rfl, by decide⟩,
   C5_answer_unmodified_amended ⟨10, 3600, true, true, true, true⟩ (fun _ _ => [])
     (fun _ => .ok "A [1]") 0 ⟨[], some ⟨[], 0, 0, 0⟩⟩ "q" none ⟨[], 0, 0, 0⟩
     rfl rfl (by decide)⟩

/-! ### C1 — empty retrieval does not short-circuit -/

/-- C1 is false as stated: with an empty retrieval, the engine still invokes
generation (the generated string, not a fixed message, is returned), and the
result **is** cached — a second identical query (whose generator would answer
differently) is answered from the cache with the first answer. -/
theorem C1_empty_retrieval_counterexample :
    (ConversationalRAGChain.query ⟨10, 3600, true, true, true, true⟩
      (fun _ _ => []) (fun _ => .ok "GENANSWER") 0
      ⟨[], some ⟨[], 0, 0, 0⟩⟩ "q" none).1 = ("GENANSWER", [])
    ∧ "GENANSWER" ≠ "No relevant information was found in the database."
    ∧ (ConversationalRAGChain.query ⟨10, 3600, true, true, true, true⟩
        (fun _ _ => []) (fun _ => .ok "OTHER") 0
        (ConversationalRAGChain.query ⟨10, 3600, true, true, true, true⟩
          (fun _ _ => []) (fun _ => .ok "GENANSWER") 0
          ⟨[], some ⟨[], 0, 0, 0⟩⟩ "q" none).2
        "q" none).1.1 = "GENANSWER" :=
  ⟨by with_unfolding_all decide, by decide, by with_unfolding_all decide⟩

/-- C1 (amended): when retrieval returns no documents, there is no
short-circuit — the fixed "No relevant information was found in the database."
string becomes the *context* of the prompt, prompt building and generation
still run, the generated answer is returned with an empty source list, and
the result is cached (a later identical query is answered from the cache). -/
theorem C1_empty_retrieval_amended (cfg : ConversationalRAGChain.Config)
    (retriever : String → ℕ → List Doc) (gen : String → Except String String)
    (now : ℚ) (st : ConversationalRAGChain.EngineState) (question : String)
    (top_k : Option ℕ) (cs : CacheState)
    (hcache : st.cache = some cs)
    (henabled : cfg.cache_enabled = true)
    (hmiss : (ResponseCache.get cfg.cache_enabled cs question
      (HybridRetriever.resolveTopK top_k 5) now).1 = none)
    (hempty : retriever question (HybridRetriever.resolveTopK top_k 5) = []) :
    (ConversationalRAGChain.query cfg retriever gen now st question top_k).1.2 = []
    ∧ (ConversationalRAGChain.query cfg retriever gen now st question top_k).1.1
      = ConversationalRAGChain.generate_response gen
          (PromptOptimizer.create_prompt cfg.use_few_shot
            cfg.auto_augment_short_queries
            "No relevant information was found in the database."
            (ConversationalRAGChain.format_chat_history st.conversation_history
              cfg.max_history)
            question st.conversation_history).1
    ∧ ∃ cs', (ConversationalRAGChain.query cfg retriever gen now st question
        top_k).2.cache = some cs'
      ∧ storeGet cs'.store
          (ResponseCache.generate_cache_key question
            (HybridRetriever.resolveTopK top_k 5))
        = some ⟨⟨(ConversationalRAGChain.query cfg retriever gen now st question
                    top_k).1.1, [], now⟩,
                now + cfg.ttl⟩ := by
  rw [query_eq_queryCore_of_miss cfg retriever gen now st question top_k cs hcache
    hmiss]
  refine ⟨hempty, ?_, ?_⟩
  · show ConversationalRAGChain.generate_response gen
        (PromptOptimizer.create_prompt cfg.use_few_shot cfg.auto_augment_short_queries
          (ConversationalRAGChain.format_context_with_quality_tiers
            (retriever question (HybridRetriever.resolveTopK top_k 5)))
          (ConversationalRAGChain.format_chat_history st.conversation_history
            cfg.max_history)
          question st.conversation_history).1 = _
    rw [hempty]
    rfl
  · refine ⟨_, rfl, ?_⟩
    simp only [ResponseCache.set, henabled, if_true, memSet]
    rw [show ([] : List Doc)
        = retriever question (HybridRetriever.resolveTopK top_k 5) from hempty.symm]
    exact storeGet_storeSet_self _ _ _

/-- Witness for the amended C1 at a concrete engine state. -/
theorem C1_empty_retrieval_amended_witness :
    ((⟨[], some ⟨[], 0, 0, 0⟩⟩ : ConversationalRAGChain.EngineState).cache
        = some ⟨[], 0, 0, 0⟩
      ∧ (⟨10, 3600, true, true, true, true⟩ :
          ConversationalRAGChain.Config).cache_enabled = true
      ∧ (ResponseCache.get true ⟨[], 0, 0, 0⟩ "q"
          (HybridRetriever.resolveTopK none 5) 0).1 = none
      ∧ (fun (_ : String) (_ : ℕ) => ([] : List Doc)) "q"
          (HybridRetriever.resolveTopK none 5) = [])
    ∧ ((ConversationalRAGChain.query ⟨10, 3600, true, true, true, true⟩
        (fun _ _ => []) (fun _ => .ok "G") 0 ⟨[], some ⟨[], 0, 0, 0⟩⟩
        "q" none).1.2 = []
      ∧ (ConversationalRAGChain.query ⟨10, 3600, true, true, true, true⟩
          (fun _ _ => []) (fun _ => .ok "G") 0 ⟨[], some ⟨[], 0, 0, 0⟩⟩
          "q" none).1.1
        = ConversationalRAGChain.generate_response (fun _ => .ok "G")
            (PromptOptimizer.create_prompt true true
              "No relevant information was found in the database."
              (ConversationalRAGChain.format_chat_history [] 10) "q" []).1
      ∧ ∃ cs', (ConversationalRAGChain.query ⟨10, 3600, true, true, true, true⟩
          (fun _ _ => []) (fun _ => .ok "G") 0 ⟨[], some ⟨[], 0, 0, 0⟩⟩
          "q" none).2.cache = some cs'
        ∧ storeGet cs'.store
            (ResponseCache.generate_cache_key "q" (HybridRetriever.resolveTopK none 5))
          = some ⟨⟨(ConversationalRAGChain.query ⟨10, 3600, true, true, true, true⟩
                      (fun _ _ => []) (fun _ => .ok "G") 0
                      ⟨[], some ⟨[], 0, 0, 0⟩⟩ "q" none).1.1, [], 0⟩,
                  0 + (3600 : ℚ)⟩) :=
  ⟨⟨rfl, rfl, by decide, rfl⟩,
   C1_empty_retrieval_amended ⟨10, 3600, true, true, true, true⟩ (fun _ _ => [])
     (fun _ => .ok "G") 0 ⟨[], some ⟨[], 0, 0, 0⟩⟩ "q" none ⟨[], 0, 0, 0⟩
     rfl rfl (by decide) rfl⟩

/-! ### C7 — history bound -/

/-- With no cache configured, `query` is `queryCore`. -/
theorem query_cache_none_eq (cfg : ConversationalRAGChain.Config)
    (retriever : String → ℕ → List Doc) (gen : String → Except String String)
    (now : ℚ) (st : ConversationalRAGChain.EngineState) (question : String)
    (top_k : Option ℕ) (h : st.cache = none) :
    ConversationalRAGChain.query cfg retriever gen now st question top_k
      = ConversationalRAGChain.queryCore cfg retriever gen now st question
          (HybridRetriever.resolveTopK top_k 5) := by
  simp only [ConversationalRAGChain.query, h]

/-- `queryCore` keeps a `none` cache `none`. -/
theorem queryCore_cache_none (cfg : ConversationalRAGChain.Config)
    (retriever : String → ℕ → List Doc) (gen : String → Except String String)
    (now : ℚ) (st : ConversationalRAGChain.EngineState) (question : String)
    (k : ℕ) (h : st.cache = none) :
    (ConversationalRAGChain.queryCore cfg retriever gen now st question k).2.cache
      = none := by
  simp only [ConversationalRAGChain.queryCore, h]

/-- The history after `queryCore` is the last-`maxHistory` window of the old
history with the new `(question, answer)` pair appended. -/
theorem queryCore_hist (cfg : ConversationalRAGChain.Config)
    (retriever : String → ℕ → List Doc) (gen : String → Except String String)
    (now : ℚ) (st : ConversationalRAGChain.EngineState) (question : String)
    (k : ℕ) :
    (ConversationalRAGChain.queryCore cfg retriever gen now st question
      k).2.conversation_history
      = pyLastSlice cfg.max_history
          (st.conversation_history ++
            [(question,
              (ConversationalRAGChain.queryCore cfg retriever gen now st question
                k).1.1)]) :=
  historyTrim_eq cfg.max_history _

/-- With `maxHistory ≥ 1`, `queryCore` keeps the history length within the
bound. -/
theorem queryCore_hist_length_le (cfg : ConversationalRAGChain.Config)
    (retriever : String → ℕ → List Doc) (gen : String → Except String String)
    (now : ℚ) (st : ConversationalRAGChain.EngineState) (question : String)
    (k : ℕ) (hm : 1 ≤ cfg.max_history)
    (hlen : st.conversation_history.length ≤ cfg.max_history) :
    (ConversationalRAGChain.queryCore cfg retriever gen now st question
      k).2.conversation_history.length ≤ cfg.max_history := by
  rw [queryCore_hist, pyLastSlice_length _ _ (by omega)]
  simp only [List.length_append, List.length_cons, List.length_nil]
  omega

/-- The cacheless-run invariant: starting from a history that is the
last-`maxHistory` window over some already-produced prefix, running any events
keeps the cache absent, produces one pair per event, and leaves the history
equal to the last-`maxHistory` window over all produced pairs. -/
theorem runTrace_invariant (cfg : ConversationalRAGChain.Config)
    (retriever : String → ℕ → List Doc) (now : ℚ)
    (events : List (String × (String → Except String String))) :
    ∀ (st : ConversationalRAGChain.EngineState) (pre : List (String × String)),
      st.cache = none →
      st.conversation_history = pyLastSlice cfg.max_history pre →
      (ConversationalRAGChain.runTrace cfg retriever now events st).2.cache = none
      ∧ (ConversationalRAGChain.runTrace cfg retriever now events st).1.length
          = events.length
      ∧ (ConversationalRAGChain.runTrace cfg retriever now events
          st).2.conversation_history
        = pyLastSlice cfg.max_history
            (pre ++ (ConversationalRAGChain.runTrace cfg retriever now events st).1) := by
  induction events with
  | nil =>
    intro st pre h1 h2
    refine ⟨h1, rfl, ?_⟩
    simp only [ConversationalRAGChain.runTrace, List.append_nil]
    exact h2
  | cons ev rest ih =>
    intro st pre h1 h2
    obtain ⟨q, gen⟩ := ev
    simp only [ConversationalRAGChain.runTrace]
    rw [query_cache_none_eq cfg retriever gen now st q none h1]
    have hcache' :
        (ConversationalRAGChain.queryCore cfg retriever gen now st q
          (HybridRetriever.resolveTopK none 5)).2.cache = none :=
      queryCore_cache_none cfg retriever gen now st q _ h1
    have hhist' :
        (ConversationalRAGChain.queryCore cfg retriever gen now st q
          (HybridRetriever.resolveTopK none 5)).2.conversation_history
        = pyLastSlice cfg.max_history
            (pre ++
              [(q, (ConversationalRAGChain.queryCore cfg retriever gen now st q
                (HybridRetriever.resolveTopK none 5)).1.1)]) := by
      rw [queryCore_hist, h2, pyLastSlice_append]
    obtain ⟨hc, hlen, hh⟩ := ih _ _ hcache' hhist'
    refine ⟨hc, by simpa using hlen, ?_⟩
    rw [hh, List.append_assoc, List.singleton_append]

/-- C7 is false as stated: with a response cache in play, a repeated question
is answered from the cache and never appended to history.  After the three
completed queries `a, b, a` on an engine with `maxHistory = 2`, the history is
`[(a, A1), (b, A2)]`, not the pairs of the two most recent queries in
chronological order (`[(b, A2), (a, A1)]`). -/
theorem C7_history_cache_hit_counterexample :
    (ConversationalRAGChain.runTrace ⟨2, 3600, true, true, true, true⟩
      (fun _ _ => []) 0
      [("a", fun _ => .ok "A1"), ("b", fun _ => .ok "A2"),
       ("a", fun _ => .ok "A3")]
      ⟨[], some ⟨[], 0, 0, 0⟩⟩).2.conversation_history
    ≠ pyLastSlice 2
        (ConversationalRAGChain.runTrace ⟨2, 3600, true, true, true, true⟩
          (fun _ _ => []) 0
          [("a", fun _ => .ok "A1"), ("b", fun _ => .ok "A2"),
           ("a", fun _ => .ok "A3")]
          ⟨[], some ⟨[], 0, 0, 0⟩⟩).1 := by
  with_unfolding_all decide

/-- C7 (amended): for an engine without a response cache and
`maxHistory ≥ 1`, after any sequence of completed queries the history is
exactly the last-`maxHistory` window, in chronological order, of the
`(question, answer)` pairs those queries produced — in particular, after
`N > maxHistory` queries its length is exactly `maxHistory`; and on any
engine (cache or not) a query never pushes the history length beyond
`maxHistory`, nor does `clear_history`. -/
theorem C7_history_bound_amended (cfg : ConversationalRAGChain.Config)
    (retriever : String → ℕ → List Doc) (now : ℚ)
    (events : List (String × (String → Except String String)))
    (hm : 1 ≤ cfg.max_history) :
    (ConversationalRAGChain.runTrace cfg retriever now events ⟨[], none⟩).1.length
      = events.length
    ∧ (ConversationalRAGChain.runTrace cfg retriever now events
        ⟨[], none⟩).2.conversation_history
      = pyLastSlice cfg.max_history
          (ConversationalRAGChain.runTrace cfg retriever now events ⟨[], none⟩).1
    ∧ (cfg.max_history < events.length →
        (ConversationalRAGChain.runTrace cfg retriever now events
          ⟨[], none⟩).2.conversation_history.length = cfg.max_history)
    ∧ (∀ (st : ConversationalRAGChain.EngineState)
        (gen : String → Except String String) (question : String)
        (top_k : Option ℕ),
        st.conversation_history.length ≤ cfg.max_history →
        (ConversationalRAGChain.query cfg retriever gen now st question
          top_k).2.conversation_history.length ≤ cfg.max_history)
    ∧ (∀ st : ConversationalRAGChain.EngineState,
        (ConversationalRAGChain.clear_history st).conversation_history.length
          ≤ cfg.max_history) := by
  obtain ⟨hc, hlen, hh⟩ :=
    runTrace_invariant cfg retriever now events ⟨[], none⟩ [] rfl
      (by simp [pyLastSlice])
  rw [List.nil_append] at hh
  refine ⟨hlen, hh, ?_, ?_, ?_⟩
  · intro hgt
    rw [hh, pyLastSlice_length _ _ (by omega), hlen]
    omega
  · intro st gen question top_k hle
    cases hcache : st.cache with
    | none =>
      rw [query_cache_none_eq cfg retriever gen now st question top_k hcache]
      exact queryCore_hist_length_le cfg retriever gen now st question _ hm hle
    | some cs =>
      simp only [ConversationalRAGChain.query, hcache]
      cases hget : (ResponseCache.get cfg.cache_enabled cs question
          (HybridRetriever.resolveTopK top_k 5) now).1 with
      | some v => simpa using hle
      | none =>
        exact queryCore_hist_length_le cfg retriever gen now _ question _ hm hle
  · intro st
    simp [ConversationalRAGChain.clear_history]

/-- Witness for the amended C7 at a concrete cacheless run of three queries
with `maxHistory = 2`. -/
theorem C7_history_bound_amended_witness :
    (1 ≤ (⟨2, 3600, true, true, true, true⟩ :
        ConversationalRAGChain.Config).max_history)
    ∧ ((ConversationalRAGChain.runTrace ⟨2, 3600, true, true, true, true⟩
        (fun _ _ => []) 0
        [("a", fun _ => .ok "A1"), ("b", fun _ => .ok "A2"),
         ("c", fun _ => .ok "A3")] ⟨[], none⟩).1.length
        = ([("a", fun _ => .ok "A1"), ("b", fun _ => .ok "A2"),
            ("c", fun _ => .ok "A3")] :
            List (String × (String → Except String String))).length
      ∧ (ConversationalRAGChain.runTrace ⟨2, 3600, true, true, true, true⟩
          (fun _ _ => []) 0
          [("a", fun _ => .ok "A1"), ("b", fun _ => .ok "A2"),
           ("c", fun _ => .ok "A3")] ⟨[], none⟩).2.conversation_history
        = pyLastSlice 2
            (ConversationalRAGChain.runTrace ⟨2, 3600, true, true, true, true⟩
              (fun _ _ => []) 0
              [("a", fun _ => .ok "A1"), ("b", fun _ => .ok "A2"),
               ("c", fun _ => .ok "A3")] ⟨[], none⟩).1
      ∧ ((⟨2, 3600, true, true, true, true⟩ :
            ConversationalRAGChain.Config).max_history
          < ([("a", fun _ => .ok "A1"), ("b", fun _ => .ok "A2"),
              ("c", fun _ => .ok "A3")] :
              List (String × (String → Except String String))).length →
          (ConversationalRAGChain.runTrace ⟨2, 3600, true, true, true, true⟩
            (fun _ _ => []) 0
            [("a", fun _ => .ok "A1"), ("b", fun _ => .ok "A2"),
             ("c", fun _ => .ok "A3")] ⟨[], none⟩).2.conversation_history.length
            = (⟨2, 3600, true, true, true, true⟩ :
                ConversationalRAGChain.Config).max_history)
      ∧ (∀ (st : ConversationalRAGChain.EngineState)
          (gen : String → Except String String) (question : String)
          (top_k : Option ℕ),
          st.conversation_history.length
            ≤ (⟨2, 3600, true, true, true, true⟩ :
                ConversationalRAGChain.Config).max_history →
          (ConversationalRAGChain.query ⟨2, 3600, true, true, true, true⟩
            (fun _ _ => []) gen 0 st question
            top_k).2.conversation_history.length
            ≤ (⟨2, 3600, true, true, true, true⟩ :
                ConversationalRAGChain.Config).max_history)
      ∧ (∀ st : ConversationalRAGChain.EngineState,
          (ConversationalRAGChain.clear_history st).conversation_history.length
            ≤ (⟨2, 3600, true, true, true, true⟩ :
                ConversationalRAGChain.Config).max_history)) :=
  ⟨by decide,
   C7_history_bound_amended ⟨2, 3600, true, true, true, true⟩ (fun _ _ => []) 0
     [("a", fun _ => .ok "A1"), ("b", fun _ => .ok "A2"),
      ("c", fun _ => .ok "A3")] (by decide)⟩

/-! ### Reranker helper lemmas -/

namespace HybridRetriever

/-- `foldl min` is a lower bound of its seed. -/
theorem foldl_min_le_init (l : List ℚ) (a : ℚ) : l.foldl min a ≤ a := by
  induction l generalizing a with
  | nil => exact le_refl a
  | cons x xs ih => exact le_trans (ih (min a x)) (min_le_left a x)

/-- `foldl min` is a lower bound of every element. -/
theorem foldl_min_le_mem {l : List ℚ} {x : ℚ} (a : ℚ) (h : x ∈ l) :
    l.foldl min a ≤ x := by
  induction l generalizing a with
  | nil => simp at h
  | cons y ys ih =>
    rcases List.mem_cons.mp h with rfl | hx
    · exact le_trans (foldl_min_le_init ys (min a x)) (min_le_right a x)
    · exact ih (min a y) hx

/-- `foldl max` is an upper bound of every element. -/
theorem le_foldl_max_init (l : List ℚ) (a : ℚ) : a ≤ l.foldl max a := by
  induction l generalizing a with
  | nil => exact le_refl a
  | cons x xs ih => exact le_trans (le_max_left a x) (ih (max a x))

/-- `foldl max` is an upper bound of every element. -/
theorem le_foldl_max_mem {l : List ℚ} {x : ℚ} (a : ℚ) (h : x ∈ l) :
    x ≤ l.foldl max a := by
  induction l generalizing a with
  | nil => simp at h
  | cons y ys ih =>
    rcases List.mem_cons.mp h with rfl | hx
    · exact le_trans (le_max_right a x) (le_foldl_max_init ys (max a x))
    · exact ih (max a y) hx

/-- `listMin` bounds every member from below. -/
theorem listMin_le_of_mem {l : List ℚ} {x : ℚ} (h : x ∈ l) : listMin l ≤ x := by
  cases l with
  | nil => simp at h
  | cons y ys =>
    rcases List.mem_cons.mp h with rfl | hx
    · exact foldl_min_le_init ys x
    · exact foldl_min_le_mem y hx

/-- `listMax` bounds every member from above. -/
theorem le_listMax_of_mem {l : List ℚ} {x : ℚ} (h : x ∈ l) : x ≤ listMax l := by
  cases l with
  | nil => simp at h
  | cons y ys =>
    rcases List.mem_cons.mp h with rfl | hx
    · exact le_foldl_max_init ys x
    · exact le_foldl_max_mem y hx

/-- `foldl min` lands on the seed or on an element. -/
theorem foldl_min_cases (l : List ℚ) (a : ℚ) : l.foldl min a = a ∨ l.foldl min a ∈ l := by
  induction l generalizing a with
  | nil => exact Or.inl rfl
  | cons x xs ih =>
    rcases ih (min a x) with h | h
    · rcases min_choice a x with hm | hm
      · exact Or.inl (h.trans hm)
      · exact Or.inr (List.mem_cons.mpr (Or.inl (h.trans hm)))
    · exact Or.inr (List.mem_cons.mpr (Or.inr h))

/-- `foldl max` lands on the seed or on an element. -/
theorem foldl_max_cases (l : List ℚ) (a : ℚ) : l.foldl max a = a ∨ l.foldl max a ∈ l := by
  induction l generalizing a with
  | nil => exact Or.inl rfl
  | cons x xs ih =>
    rcases ih (max a x) with h | h
    · rcases max_choice a x with hm | hm
      · exact Or.inl (h.trans hm)
      · exact Or.inr (List.mem_cons.mpr (Or.inl (h.trans hm)))
    · exact Or.inr (List.mem_cons.mpr (Or.inr h))

/-- On a non-empty list the minimum is attained. -/
theorem listMin_mem {l : List ℚ} (h : l ≠ []) : listMin l ∈ l := by
  cases l with
  | nil => exact absurd rfl h
  | cons y ys =>
    rcases foldl_min_cases ys y with hc | hc
    · simpa [listMin] using List.mem_cons.mpr (Or.inl hc)
    · simpa [listMin] using List.mem_cons.mpr (Or.inr hc)

/-- On a non-empty list the maximum is attained. -/
theorem listMax_mem {l : List ℚ} (h : l ≠ []) : listMax l ∈ l := by
  cases l with
  | nil => exact absurd rfl h
  | cons y ys =>
    rcases foldl_max_cases ys y with hc | hc
    · simpa [listMax] using List.mem_cons.mpr (Or.inl hc)
    · simpa [listMax] using List.mem_cons.mpr (Or.inr hc)

/-- Every normalized score lies in `[0, 1]`. -/
theorem normalize_scores_bounds (scores : List ℚ) :
    ∀ s ∈ normalize_scores scores, 0 ≤ s ∧ s ≤ 1 := by
  intro s hs
  by_cases hne : scores = []
  · simp [normalize_scores, hne] at hs
  · simp only [normalize_scores, hne, if_false] at hs
    by_cases hpos : 0 < listMax scores - listMin scores
    · simp only [hpos, if_true, List.mem_map] at hs
      obtain ⟨x, hx, rfl⟩ := hs
      constructor
      · exact div_nonneg (sub_nonneg.mpr (listMin_le_of_mem hx)) (le_of_lt hpos)
      · rw [div_le_one hpos]
        have := le_listMax_of_mem hx
        linarith
    · simp only [hpos, if_false, List.mem_map] at hs
      obtain ⟨x, hx, rfl⟩ := hs
      norm_num

/-- A list of all-equal scores normalizes to all `1.0`. -/
theorem normalize_scores_uniform (scores : List ℚ) (hne : scores ≠ [])
    (huni : ∀ a ∈ scores, ∀ b ∈ scores, a = b) :
    ∀ s ∈ normalize_scores scores, s = 1 := by
  intro s hs
  have hmm : listMax scores = listMin scores :=
    huni _ (listMax_mem hne) _ (listMin_mem hne)
  have hzero : ¬ 0 < listMax scores - listMin scores := by
    rw [hmm]
    simp
  simp only [normalize_scores, hne, if_false, hzero, List.mem_map] at hs
  obtain ⟨x, hx, rfl⟩ := hs
  rfl

/-- Normalization preserves the list length. -/
theorem normalize_scores_length (scores : List ℚ) :
    (normalize_scores scores).length = scores.length := by
  by_cases hne : scores = []
  · simp [normalize_scores, hne]
  · simp only [normalize_scores, hne, if_false]
    by_cases hpos : 0 < listMax scores - listMin scores <;> simp [hpos]

/-- Membership in `dictInsert`: the new entry or an old one. -/
theorem mem_dictInsert {acc : List HybridResult} {e x : HybridResult}
    (h : x ∈ dictInsert acc e) : x = e ∨ x ∈ acc := by
  unfold dictInsert at h
  split at h
  · rcases List.mem_map.mp h with ⟨o, ho, hx⟩
    by_cases heq : o.content = e.content
    · rw [if_pos heq] at hx
      exact Or.inl hx.symm
    · rw [if_neg heq] at hx
      exact Or.inr (hx ▸ ho)
  · rcases List.mem_append.mp h with h' | h'
    · exact Or.inr h'
    · exact Or.inl (List.mem_singleton.mp h')

/-- Membership in `bmInsert`: an old entry, an old entry with its
`bm25_score_norm` overwritten (only when its content matches), or the fresh
BM25-only entry. -/
theorem mem_bmInsert {acc : List HybridResult} {p : BmResult × ℚ}
    {x : HybridResult} (h : x ∈ bmInsert acc p) :
    (∃ o ∈ acc, x = o ∨ (x = { o with bm25_score_norm := p.2 }
      ∧ o.content = p.1.content)) ∨ x = bmEntry p := by
  unfold bmInsert at h
  split at h
  · rcases List.mem_map.mp h with ⟨o, ho, hx⟩
    by_cases heq : o.content = p.1.content
    · rw [if_pos heq] at hx
      exact Or.inl ⟨o, ho, Or.inr ⟨hx.symm, heq⟩⟩
    · rw [if_neg heq] at hx
      exact Or.inl ⟨o, ho, Or.inl hx.symm⟩
  · rcases List.mem_append.mp h with h' | h'
    · exact Or.inl ⟨x, h', Or.inl rfl⟩
    · exact Or.inr (List.mem_singleton.mp h')

/-- Invariant preservation through the vector pass. -/
theorem vecFold_inv (P : HybridResult → Prop) (vecN : List (VecResult × ℚ)) :
    ∀ acc : List HybridResult, (∀ e ∈ acc, P e) → (∀ p ∈ vecN, P (vecEntry p)) →
    ∀ e ∈ vecN.foldl (fun acc p => dictInsert acc (vecEntry p)) acc, P e := by
  induction vecN with
  | nil => intro acc hacc _ e he; exact hacc e he
  | cons p ps ih =>
    intro acc hacc hstep e he
    refine ih (dictInsert acc (vecEntry p)) ?_ (fun r hr => hstep r (List.mem_cons_of_mem p hr)) e he
    intro e' he'
    rcases mem_dictInsert he' with rfl | h
    · exact hstep p (List.mem_cons_self p ps)
    · exact hacc e' h

/-- Invariant preservation through the BM25 pass. -/
theorem bmFold_inv (P : HybridResult → Prop) (bmN : List (BmResult × ℚ)) :
    ∀ acc : List HybridResult, (∀ e ∈ acc, P e) →
    (∀ e, P e → ∀ p ∈ bmN, e.content = p.1.content →
      P { e with bm25_score_norm := p.2 }) →
    (∀ p ∈ bmN, P (bmEntry p)) →
    ∀ e ∈ bmN.foldl bmInsert acc, P e := by
  induction bmN with
  | nil => intro acc hacc _ _ e he; exact hacc e he
  | cons p ps ih =>
    intro acc hacc hupd hnew e he
    refine ih (bmInsert acc p) ?_
      (fun e' he' r hr hco => hupd e' he' r (List.mem_cons_of_mem p hr) hco)
      (fun r hr => hnew r (List.mem_cons_of_mem p hr)) e he
    intro e' he'
    rcases mem_bmInsert he' with ⟨o, ho, hcase⟩ | hx
    · rcases hcase with hx | ⟨hx, hco⟩
      · exact hx ▸ hacc o ho
      · exact hx ▸ hupd o (hacc o ho) p (List.mem_cons_self p ps) hco
    · exact hx ▸ hnew p (List.mem_cons_self p ps)

/-- `insertDesc` is a permutation of consing. -/
theorem insertDesc_perm (x : HybridResult) (l : List HybridResult) :
    (insertDesc x l).Perm (x :: l) := by
  induction l with
  | nil => exact List.Perm.refl _
  | cons y ys ih =>
    unfold insertDesc
    by_cases h : y.hybrid_score ≤ x.hybrid_score
    · rw [if_pos h]
    · rw [if_neg h]
      exact (List.Perm.cons y ih).trans (List.Perm.swap x y ys)

/-- `sortDescByHybrid` is a permutation of its input. -/
theorem sortDescByHybrid_perm (l : List HybridResult) :
    (sortDescByHybrid l).Perm l := by
  induction l with
  | nil => exact List.Perm.refl _
  | cons x xs ih =>
    exact (insertDesc_perm x (sortDescByHybrid xs)).trans (List.Perm.cons x ih)

/-- `insertDesc` preserves descending sortedness. -/
theorem insertDesc_pairwise (x : HybridResult) (l : List HybridResult)
    (h : List.Pairwise (fun a b => b.hybrid_score ≤ a.hybrid_score) l) :
    List.Pairwise (fun a b => b.hybrid_score ≤ a.hybrid_score) (insertDesc x l) := by
  induction l with
  | nil => simp [insertDesc]
  | cons y ys ih =>
    unfold insertDesc
    by_cases hle : y.hybrid_score ≤ x.hybrid_score
    · rw [if_pos hle]
      refine List.Pairwise.cons ?_ h
      intro z hz
      rcases List.mem_cons.mp hz with rfl | hz'
      · exact hle
      · exact le_trans ((List.pairwise_cons.mp h).1 z hz') hle
    · rw [if_neg hle]
      refine List.Pairwise.cons ?_ (ih (List.pairwise_cons.mp h).2)
      intro z hz
      have hz' := (insertDesc_perm x ys).mem_iff.mp hz
      rcases List.mem_cons.mp hz' with rfl | hz''
      · exact le_of_lt (lt_of_not_le hle)
      · exact (List.pairwise_cons.mp h).1 z hz''

/-- `sortDescByHybrid` output is non-increasing in `hybrid_score`. -/
theorem sortDescByHybrid_pairwise (l : List HybridResult) :
    List.Pairwise (fun a b => b.hybrid_score ≤ a.hybrid_score)
      (sortDescByHybrid l) := by
  induction l with
  | nil => simp [sortDescByHybrid]
  | cons x xs ih => exact insertDesc_pairwise x (sortDescByHybrid xs) ih

/-- Stability of `insertDesc`, phrased through equal-key filtering: inserting
into a sorted list places the new element before exactly the strictly-smaller
keys, so restricting to any fixed key value the result is the plain cons. -/
theorem insertDesc_filter_key (x : HybridResult) (l : List HybridResult) (q : ℚ)
    (hl : List.Pairwise (fun a b => b.hybrid_score ≤ a.hybrid_score) l) :
    (insertDesc x l).filter (fun e => decide (e.hybrid_score = q))
      = (x :: l).filter (fun e => decide (e.hybrid_score = q)) := by
  induction l with
  | nil => rfl
  | cons y ys ih =>
    unfold insertDesc
    by_cases hle : y.hybrid_score ≤ x.hybrid_score
    · rw [if_pos hle]
    · rw [if_neg hle]
      have hys := (List.pairwise_cons.mp hl).2
      by_cases hx : x.hybrid_score = q <;> by_cases hy : y.hybrid_score = q
      · exact absurd (le_of_eq (hy.trans hx.symm)) hle
      all_goals simp [List.filter_cons, hx, hy, ih hys]

/-- Stability of the sort: for each key value, sorting does not change the
relative order of the elements carrying that key. -/
theorem sortDescByHybrid_filter_key (l : List HybridResult) (q : ℚ) :
    (sortDescByHybrid l).filter (fun e => decide (e.hybrid_score = q))
      = l.filter (fun e => decide (e.hybrid_score = q)) := by
  induction l with
  | nil => rfl
  | cons x xs ih =>
    have := insertDesc_filter_key x (sortDescByHybrid xs) q (sortDescByHybrid_pairwise xs)
    rw [sortDescByHybrid, this, List.filter_cons, List.filter_cons, ih]

end HybridRetriever

/-! ### C6 — hybrid score formula and normalization -/

/-- C6: every result of `_merge_and_rerank` carries
`hybrid_score = alpha * vector_score + (1 - alpha) * bm25_score_norm` with
both component scores min-max normalized into `[0, 1]` and an absent signal
contributing `0`; normalization maps every score list into `[0, 1]` and an
all-equal list to all `1.0`. -/
theorem C6_hybrid_score_formula (alpha : ℚ) (vec : List VecResult)
    (bm : List BmResult) (h0 : 0 ≤ alpha) (h1 : alpha ≤ 1) :
    (∀ e ∈ HybridRetriever.merge_and_rerank alpha vec bm,
      e.hybrid_score = alpha * e.vector_score + (1 - alpha) * e.bm25_score_norm
      ∧ (0 ≤ e.vector_score ∧ e.vector_score ≤ 1)
      ∧ (0 ≤ e.bm25_score_norm ∧ e.bm25_score_norm ≤ 1)
      ∧ (e.content ∉ vec.map VecResult.content → e.vector_score = 0)
      ∧ (e.content ∉ bm.map BmResult.content → e.bm25_score_norm = 0))
    ∧ (∀ scores : List ℚ, ∀ s ∈ HybridRetriever.normalize_scores scores,
        0 ≤ s ∧ s ≤ 1)
    ∧ (∀ scores : List ℚ, scores ≠ [] →
        (∀ a ∈ scores, ∀ b ∈ scores, a = b) →
        ∀ s ∈ HybridRetriever.normalize_scores scores, s = 1) := by
  refine ⟨?_, HybridRetriever.normalize_scores_bounds,
    HybridRetriever.normalize_scores_uniform⟩
  intro e he
  have hperm := HybridRetriever.sortDescByHybrid_perm
    ((HybridRetriever.mergedEntries vec bm).map (HybridRetriever.scoreEntry alpha))
  have he' : e ∈ (HybridRetriever.mergedEntries vec bm).map
      (HybridRetriever.scoreEntry alpha) := by
    rw [← hperm.mem_iff]
    exact he
  rcases List.mem_map.mp he' with ⟨e₀, he₀, rfl⟩
  have hP : ∀ x ∈ HybridRetriever.mergedEntries vec bm,
      (0 ≤ x.vector_score ∧ x.vector_score ≤ 1)
      ∧ (0 ≤ x.bm25_score_norm ∧ x.bm25_score_norm ≤ 1)
      ∧ (x.content ∉ vec.map VecResult.content → x.vector_score = 0)
      ∧ (x.content ∉ bm.map BmResult.content → x.bm25_score_norm = 0) := by
    intro x hx
    unfold HybridRetriever.mergedEntries at hx
    refine HybridRetriever.bmFold_inv
      (fun x => (0 ≤ x.vector_score ∧ x.vector_score ≤ 1)
        ∧ (0 ≤ x.bm25_score_norm ∧ x.bm25_score_norm ≤ 1)
        ∧ (x.content ∉ vec.map VecResult.content → x.vector_score = 0)
        ∧ (x.content ∉ bm.map BmResult.content → x.bm25_score_norm = 0))
      _ _ ?_ ?_ ?_ x hx
    · -- entries produced by the vector pass
      intro y hy
      refine HybridRetriever.vecFold_inv
        (fun x => (0 ≤ x.vector_score ∧ x.vector_score ≤ 1)
          ∧ (0 ≤ x.bm25_score_norm ∧ x.bm25_score_norm ≤ 1)
          ∧ (x.content ∉ vec.map VecResult.content → x.vector_score = 0)
          ∧ (x.content ∉ bm.map BmResult.content → x.bm25_score_norm = 0))
        _ [] (by simp) ?_ y hy
      intro p hp
      have hzip := List.of_mem_zip hp
      have hbounds := HybridRetriever.normalize_scores_bounds
        (vec.map VecResult.similarity) p.2 hzip.2
      refine ⟨hbounds, by simp [HybridRetriever.vecEntry], ?_, ?_⟩
      · intro hnot
        exact absurd (List.mem_map_of_mem VecResult.content hzip.1) hnot
      · intro _
        rfl
    · -- the BM25 update keeps everything except the overwritten score
      intro y hy p hp hco
      have hzip := List.of_mem_zip hp
      have hbounds := HybridRetriever.normalize_scores_bounds
        (bm.map BmResult.bm25_score) p.2 hzip.2
      refine ⟨hy.1, hbounds, hy.2.2.1, ?_⟩
      intro hnot
      rw [hco] at hnot
      exact absurd (List.mem_map_of_mem BmResult.content hzip.1) hnot
    · -- fresh BM25-only entries
      intro p hp
      have hzip := List.of_mem_zip hp
      have hbounds := HybridRetriever.normalize_scores_bounds
        (bm.map BmResult.bm25_score) p.2 hzip.2
      refine ⟨by simp [HybridRetriever.bmEntry], hbounds, fun _ => rfl, ?_⟩
      intro hnot
      exact absurd (List.mem_map_of_mem BmResult.content hzip.1) hnot
  have hp₀ := hP e₀ he₀
  exact ⟨rfl, hp₀.1, hp₀.2.1, hp₀.2.2.1, hp₀.2.2.2⟩

/-- Witness for C6 at a concrete `alpha ∈ [0, 1]`. -/
theorem C6_hybrid_score_formula_witness :
    ((0 : ℚ) ≤ 1/2 ∧ (1/2 : ℚ) ≤ 1)
    ∧ ((∀ e ∈ HybridRetriever.merge_and_rerank (1/2)
          [⟨"A", "u", "t", 9/10⟩] [⟨"B", "u", "t", 5⟩],
        e.hybrid_score = 1/2 * e.vector_score + (1 - 1/2) * e.bm25_score_norm
        ∧ (0 ≤ e.vector_score ∧ e.vector_score ≤ 1)
        ∧ (0 ≤ e.bm25_score_norm ∧ e.bm25_score_norm ≤ 1)
        ∧ (e.content ∉ ([⟨"A", "u", "t", 9/10⟩] :
            List VecResult).map VecResult.content → e.vector_score = 0)
        ∧ (e.content ∉ ([⟨"B", "u", "t", 5⟩] :
            List BmResult).map BmResult.content → e.bm25_score_norm = 0))
      ∧ (∀ scores : List ℚ, ∀ s ∈ HybridRetriever.normalize_scores scores,
          0 ≤ s ∧ s ≤ 1)
      ∧ (∀ scores : List ℚ, scores ≠ [] →
          (∀ a ∈ scores, ∀ b ∈ scores, a = b) →
          ∀ s ∈ HybridRetriever.normalize_scores scores, s = 1)) :=
  ⟨⟨by norm_num, by norm_num⟩,
   C6_hybrid_score_formula (1/2) [⟨"A", "u", "t", 9/10⟩] [⟨"B", "u", "t", 5⟩]
     (by norm_num) (by norm_num)⟩

/-! ### C2 — output order of `retrieve` -/

namespace HybridRetriever

/-- Overwriting `bm25_score_norm` in place leaves the content sequence. -/
theorem map_content_update (acc : List HybridResult) (c : String) (v : ℚ) :
    (acc.map (fun o => if o.content = c then { o with bm25_score_norm := v }
      else o)).map HybridResult.content = acc.map HybridResult.content := by
  rw [List.map_map]
  apply List.map_congr_left
  intro o ho
  by_cases h : o.content = c <;> simp [h]

/-- With pairwise-distinct incoming contents, the vector pass appends one
entry per pair, so its content sequence is the vector content sequence. -/
theorem vecFold_contents (vecN : List (VecResult × ℚ)) :
    ∀ acc : List HybridResult,
      (acc.map HybridResult.content ++ vecN.map (fun p => p.1.content)).Nodup →
      (vecN.foldl (fun acc p => dictInsert acc (vecEntry p)) acc).map
          HybridResult.content
        = acc.map HybridResult.content ++ vecN.map (fun p => p.1.content) := by
  induction vecN with
  | nil =>
    intro acc _
    simp
  | cons p ps ih =>
    intro acc hnd
    have hnotin : p.1.content ∉ acc.map HybridResult.content := by
      intro hmem
      have hdisj := (List.nodup_append.mp hnd).2.2
      exact hdisj hmem (by simp)
    have hstep : dictInsert acc (vecEntry p) = acc ++ [vecEntry p] := by
      unfold dictInsert
      split
      · rename_i hc
        exfalso
        rcases List.any_eq_true.mp hc with ⟨o, ho, heq⟩
        have heq' : o.content = p.1.content := of_decide_eq_true heq
        exact hnotin (heq' ▸ List.mem_map_of_mem HybridResult.content ho)
      · rfl
    rw [List.foldl_cons, hstep]
    have hnd' : ((acc ++ [vecEntry p]).map HybridResult.content ++
        ps.map (fun p => p.1.content)).Nodup := by
      simp only [List.map_append, List.map_cons, List.map_nil, List.append_assoc,
        List.singleton_append]
      simpa using hnd
    rw [ih (acc ++ [vecEntry p]) hnd']
    simp [List.append_assoc, vecEntry]

/-- The BM25 pass only rewrites scores of existing entries and appends fresh
contents: the content sequence is the old one plus a disjoint remainder. -/
theorem bmFold_contents (bmN : List (BmResult × ℚ)) :
    ∀ acc : List HybridResult, ∃ rest : List String,
      (bmN.foldl bmInsert acc).map HybridResult.content
        = acc.map HybridResult.content ++ rest
      ∧ ∀ c ∈ rest, c ∉ acc.map HybridResult.content := by
  induction bmN with
  | nil =>
    intro acc
    exact ⟨[], by simp, by simp⟩
  | cons p ps ih =>
    intro acc
    by_cases hmem : p.1.content ∈ acc.map HybridResult.content
    · have hstep : bmInsert acc p = acc.map
          (fun o => if o.content = p.1.content then
            { o with bm25_score_norm := p.2 } else o) := by
        unfold bmInsert
        split
        · rfl
        · rename_i hc
          exfalso
          rcases List.mem_map.mp hmem with ⟨o, ho, hco⟩
          exact hc (List.any_eq_true.mpr ⟨o, ho, by simp [hco]⟩)
      rw [List.foldl_cons, hstep]
      obtain ⟨rest, h1, h2⟩ := ih (acc.map
        (fun o => if o.content = p.1.content then
          { o with bm25_score_norm := p.2 } else o))
      rw [map_content_update] at h1 h2
      exact ⟨rest, h1, h2⟩
    · have hstep : bmInsert acc p = acc ++ [bmEntry p] := by
        unfold bmInsert
        split
        · rename_i hc
          exfalso
          rcases List.any_eq_true.mp hc with ⟨o, ho, heq⟩
          have heq' : o.content = p.1.content := of_decide_eq_true heq
          exact hmem (heq' ▸ List.mem_map_of_mem HybridResult.content ho)
        · rfl
      rw [List.foldl_cons, hstep]
      obtain ⟨rest, h1, h2⟩ := ih (acc ++ [bmEntry p])
      refine ⟨p.1.content :: rest, ?_, ?_⟩
      · rw [h1]
        simp [List.append_assoc, bmEntry]
      · intro c hcmem
        rcases List.mem_cons.mp hcmem with rfl | hcr
        · exact hmem
        · intro hca
          exact h2 c hcr (by simp [hca])

/-- In a duplicate-free list, a two-element sublist respects `indexOf`. -/
theorem sublist_pair_indexOf_lt {l : List String} {a b : String}
    (hnd : l.Nodup) (h : [a, b].Sublist l) :
    l.indexOf a < l.indexOf b := by
  induction l with
  | nil => simp at h
  | cons c rest ih =>
    cases h with
    | cons _ h' =>
      have ha : a ∈ rest := h'.subset (by simp)
      have hb : b ∈ rest := h'.subset (by simp)
      have hc : c ∉ rest := (List.nodup_cons.mp hnd).1
      have hca : c ≠ a := fun hca => hc (hca ▸ ha)
      have hcb : c ≠ b := fun hcb => hc (hcb ▸ hb)
      rw [List.indexOf_cons_ne _ hca, List.indexOf_cons_ne _ hcb]
      exact Nat.succ_lt_succ (ih (List.nodup_cons.mp hnd).2 h')
    | cons₂ =>
      rename_i h'
      have hb : b ∈ rest := h'.subset (by simp)
      have hc : a ∉ rest := (List.nodup_cons.mp hnd).1
      have hab : a ≠ b := fun hab => hc (hab ▸ hb)
      rw [List.indexOf_cons_self, List.indexOf_cons_ne _ hab]
      exact Nat.succ_pos _

end HybridRetriever

/-- C2: for every query and requested `topK ≥ 1` (and pairwise-distinct
vector-result contents, as retrieval of distinct chunks provides), `retrieve`
returns at most `topK` results, in non-increasing `hybrid_score` order, and
two results with equal hybrid score that both stem from the vector list occur
in the order of their original vector-search ranks. -/
theorem C2_retrieve_sorted_bounded (alpha : ℚ)
    (vector_retriever : String → ℕ → List VecResult)
    (bm25_search : String → ℕ → List BmResult)
    (top_k_vector top_k_bm25 : ℕ) (query : String) (t : ℕ)
    (ht : 1 ≤ t)
    (hnd : ((vector_retriever query top_k_vector).map VecResult.content).Nodup) :
    (HybridRetriever.retrieve alpha vector_retriever bm25_search top_k_vector
      top_k_bm25 query (some t)).length ≤ t
    ∧ List.Pairwise (fun a b => b.hybrid_score ≤ a.hybrid_score)
        (HybridRetriever.retrieve alpha vector_retriever bm25_search top_k_vector
          top_k_bm25 query (some t))
    ∧ (∀ a b : HybridResult,
        [a, b].Sublist (HybridRetriever.retrieve alpha vector_retriever bm25_search
          top_k_vector top_k_bm25 query (some t)) →
        a.hybrid_score = b.hybrid_score →
        a.content ∈ (vector_retriever query top_k_vector).map VecResult.content →
        b.content ∈ (vector_retriever query top_k_vector).map VecResult.content →
        ((vector_retriever query top_k_vector).map VecResult.content).indexOf
            a.content
          < ((vector_retriever query top_k_vector).map VecResult.content).indexOf
              b.content) := by
  have hk : HybridRetriever.resolveTopK (some t) top_k_vector = t := by
    show (if t = 0 then top_k_vector else t) = t
    rw [if_neg (by omega)]
  set vec := vector_retriever query top_k_vector with hvec
  set bm := bm25_search query top_k_bm25 with hbm
  have hretr : HybridRetriever.retrieve alpha vector_retriever bm25_search
      top_k_vector top_k_bm25 query (some t)
      = (HybridRetriever.merge_and_rerank alpha vec bm).take t := by
    unfold HybridRetriever.retrieve
    rw [hk]
  refine ⟨?_, ?_, ?_⟩
  · rw [hretr]
    exact List.length_take_le t _
  · rw [hretr]
    exact List.Pairwise.sublist (List.take_sublist t _)
      (HybridRetriever.sortDescByHybrid_pairwise _)
  · intro a b hsub heq ha hb
    set M := (HybridRetriever.mergedEntries vec bm).map
      (HybridRetriever.scoreEntry alpha) with hM
    have hmm : HybridRetriever.merge_and_rerank alpha vec bm
        = HybridRetriever.sortDescByHybrid M := rfl
    have hfil : [a, b].filter (fun e => decide (e.hybrid_score = a.hybrid_score))
        = [a, b] := by
      simp [List.filter_cons, heq.symm]
    have h1 : [a, b].Sublist
        ((HybridRetriever.retrieve alpha vector_retriever bm25_search top_k_vector
          top_k_bm25 query (some t)).filter
          (fun e => decide (e.hybrid_score = a.hybrid_score))) := by
      rw [← hfil]
      exact hsub.filter _
    have h2 : ((HybridRetriever.retrieve alpha vector_retriever bm25_search
        top_k_vector top_k_bm25 query (some t)).filter
          (fun e => decide (e.hybrid_score = a.hybrid_score))).Sublist
        ((HybridRetriever.sortDescByHybrid M).filter
          (fun e => decide (e.hybrid_score = a.hybrid_score))) := by
      rw [hretr, hmm]
      exact (List.IsPrefix.filter _ (List.take_prefix t _)).sublist
    have h5 : ((HybridRetriever.sortDescByHybrid M).filter
        (fun e => decide (e.hybrid_score = a.hybrid_score))).Sublist M := by
      rw [HybridRetriever.sortDescByHybrid_filter_key M a.hybrid_score]
      exact List.filter_sublist M
    have h4 : [a, b].Sublist M := (h1.trans h2).trans h5
    have h6 : [a.content, b.content].Sublist (M.map HybridResult.content) := by
      simpa using h4.map HybridResult.content
    have h7 : M.map HybridResult.content
        = (HybridRetriever.mergedEntries vec bm).map HybridResult.content := by
      rw [hM, List.map_map]
      exact List.map_congr_left (fun o _ => rfl)
    have h8 : (vec.zip (HybridRetriever.normalize_scores
        (vec.map VecResult.similarity))).map (fun p => p.1.content)
        = vec.map VecResult.content := by
      have hlen : vec.length ≤ (HybridRetriever.normalize_scores
          (vec.map VecResult.similarity)).length := by
        rw [HybridRetriever.normalize_scores_length]
        simp
      have hcomp : (vec.zip (HybridRetriever.normalize_scores
          (vec.map VecResult.similarity))).map (fun p => p.1.content)
          = ((vec.zip (HybridRetriever.normalize_scores
              (vec.map VecResult.similarity))).map Prod.fst).map
              VecResult.content := by
        rw [List.map_map]
        rfl
      rw [hcomp, List.map_fst_zip _ _ hlen]
    have hm0 : ((vec.zip (HybridRetriever.normalize_scores
        (vec.map VecResult.similarity))).foldl
          (fun acc p => HybridRetriever.dictInsert acc (HybridRetriever.vecEntry p))
          []).map HybridResult.content = vec.map VecResult.content := by
      have hnd₂ : (([] : List HybridResult).map HybridResult.content ++
          (vec.zip (HybridRetriever.normalize_scores
            (vec.map VecResult.similarity))).map (fun p => p.1.content)).Nodup := by
        rw [h8]
        simpa using hnd
      have := HybridRetriever.vecFold_contents _ [] hnd₂
      rw [this, h8]
      simp
    obtain ⟨rest, h10, h11⟩ := HybridRetriever.bmFold_contents
      (bm.zip (HybridRetriever.normalize_scores (bm.map BmResult.bm25_score)))
      ((vec.zip (HybridRetriever.normalize_scores
        (vec.map VecResult.similarity))).foldl
        (fun acc p => HybridRetriever.dictInsert acc (HybridRetriever.vecEntry p)) [])
    have h12 : (HybridRetriever.mergedEntries vec bm).map HybridResult.content
        = vec.map VecResult.content ++ rest := by
      have hunfold : HybridRetriever.mergedEntries vec bm
          = (bm.zip (HybridRetriever.normalize_scores
              (bm.map BmResult.bm25_score))).foldl HybridRetriever.bmInsert
              ((vec.zip (HybridRetriever.normalize_scores
                (vec.map VecResult.similarity))).foldl
                (fun acc p => HybridRetriever.dictInsert acc
                  (HybridRetriever.vecEntry p)) []) := rfl
      rw [hunfold, h10, hm0]
    have h13 : ∀ c ∈ rest, c ∉ vec.map VecResult.content := by
      intro c hc
      rw [← hm0]
      exact h11 c hc
    rw [h7, h12] at h6
    rcases List.sublist_append_iff.mp h6 with ⟨l₁, l₂, hsplit, hsub1, hsub2⟩
    cases l₂ with
    | cons m ms =>
      exfalso
      have hmr : m ∈ rest := hsub2.subset (by simp)
      have hmab : m ∈ ([a.content, b.content] : List String) := by
        rw [hsplit]
        simp
      rcases List.mem_cons.mp hmab with hma | hmb
      · rw [hma] at hmr
        exact h13 a.content hmr ha
      · rw [List.mem_singleton.mp hmb] at hmr
        exact h13 b.content hmr hb
    | nil =>
      rw [List.append_nil] at hsplit
      rw [← hsplit] at hsub1
      exact HybridRetriever.sublist_pair_indexOf_lt hnd hsub1

/-- Witness for C2 at a concrete query with two vector and one BM25 result. -/
theorem C2_retrieve_sorted_bounded_witness :
    (1 ≤ 2
      ∧ (((fun (_ : String) (_ : ℕ) =>
          [(⟨"A", "u", "t", 9/10⟩ : VecResult), ⟨"B", "u", "t", 8/10⟩]) "q"
          20).map VecResult.content).Nodup)
    ∧ ((HybridRetriever.retrieve (1/2)
        (fun _ _ => [⟨"A", "u", "t", 9/10⟩, ⟨"B", "u", "t", 8/10⟩])
        (fun _ _ => [⟨"C", "u", "t", 5⟩]) 20 20 "q" (some 2)).length ≤ 2
      ∧ List.Pairwise (fun a b => b.hybrid_score ≤ a.hybrid_score)
          (HybridRetriever.retrieve (1/2)
            (fun _ _ => [⟨"A", "u", "t", 9/10⟩, ⟨"B", "u", "t", 8/10⟩])
            (fun _ _ => [⟨"C", "u", "t", 5⟩]) 20 20 "q" (some 2))
      ∧ (∀ a b : HybridResult,
          [a, b].Sublist (HybridRetriever.retrieve (1/2)
            (fun _ _ => [⟨"A", "u", "t", 9/10⟩, ⟨"B", "u", "t", 8/10⟩])
            (fun _ _ => [⟨"C", "u", "t", 5⟩]) 20 20 "q" (some 2)) →
          a.hybrid_score = b.hybrid_score →
          a.content ∈ (((fun (_ : String) (_ : ℕ) =>
            [(⟨"A", "u", "t", 9/10⟩ : VecResult), ⟨"B", "u", "t", 8/10⟩]) "q"
            20).map VecResult.content) →
          b.content ∈ (((fun (_ : String) (_ : ℕ) =>
            [(⟨"A", "u", "t", 9/10⟩ : VecResult), ⟨"B", "u", "t", 8/10⟩]) "q"
            20).map VecResult.content) →
          ((((fun (_ : String) (_ : ℕ) =>
            [(⟨"A", "u", "t", 9/10⟩ : VecResult), ⟨"B", "u", "t", 8/10⟩]) "q"
            20).map VecResult.content).indexOf a.content
            < (((fun (_ : String) (_ : ℕ) =>
              [(⟨"A", "u", "t", 9/10⟩ : VecResult), ⟨"B", "u", "t", 8/10⟩]) "q"
              20).map VecResult.content).indexOf b.content))) :=
  ⟨⟨by decide, by decide⟩,
   C2_retrieve_sorted_bounded (1/2)
     (fun _ _ => [⟨"A", "u", "t", 9/10⟩, ⟨"B", "u", "t", 8/10⟩])
     (fun _ _ => [⟨"C", "u", "t", 5⟩]) 20 20 "q" 2 (by decide) (by decide)⟩

end CvScreener
